import Mathlib

/-!
# wgpu-starter: a trace model of `src/main.cpp`

The program is glue code around GLFW and WebGPU.  Every call into one of the
two libraries is recorded as an `Event`; the process globals of `main.cpp`
(lines 11-19) are the fields of `State`.  Each C++ function becomes a Lean
function from the state to the new state and the list of events it emits.

The model is the native build (`__EMSCRIPTEN__` undefined), in which
`RequestAdapter` and `RequestDevice` invoke their callback before they return.
What the outside world decides (whether GLFW initialises, whether a window is
obtained, the request statuses, the framebuffer sizes, how many times
`glfwWindowShouldClose` answers false) is the `Env` argument; a run is one in
which the window is eventually closed.  `OnError` (lines 21-27) only prints
and is called by the device, not by the program; it is not part of the model.
-/

namespace WgpuStarter

/-! ## Machine integers and sizes -/

/-- Conversion of a C++ `int` to `uint32_t`: reduction modulo `2^32`. -/
def toU32 (x : Int) : Nat := (x % 4294967296).toNat

/-- The value of `sizeof(glm::vec2)`: two 32-bit floats. -/
def sizeofVec2 : Nat := 8

/-- The value of the `EXIT_FAILURE` status of `<cstdlib>`. -/
def EXIT_FAILURE : Nat := 1

/-- Object handles handed out by GLFW and WebGPU; every creation call returns
the next unused one (`State.fresh`). -/
abbrev Handle := Nat

/-! ## WebGPU descriptors (the fields `main.cpp` sets, and the defaults it relies on) -/

/-- A `glm::vec2`: two 32-bit floats, each given by the rational it holds. -/
structure Vec2 where
  x : Rat
  y : Rat
deriving DecidableEq, Repr

/-- A `wgpu::Color`. -/
structure Color where
  r : Rat
  g : Rat
  b : Rat
  a : Rat
deriving DecidableEq, Repr

inductive TextureUsage where
  | None | CopySrc | CopyDst | TextureBinding | StorageBinding | RenderAttachment
deriving DecidableEq, Repr

inductive TextureFormat where
  | Undefined | RGBA8Unorm | BGRA8Unorm | Depth24Plus
deriving DecidableEq, Repr

inductive PresentMode where
  | Immediate | Mailbox | Fifo
deriving DecidableEq, Repr

inductive BufferUsage where
  | MapRead | MapWrite | CopySrc | CopyDst | Index | Vertex | Uniform
deriving DecidableEq, Repr

inductive VertexFormat where
  | Float32 | Float32x2 | Float32x3 | Float32x4
deriving DecidableEq, Repr

/-- Byte size of one attribute of the given vertex format. -/
def VertexFormat.byteSize : VertexFormat → Nat
  | .Float32 => 4
  | .Float32x2 => 8
  | .Float32x3 => 12
  | .Float32x4 => 16

inductive VertexStepMode where
  | Vertex | Instance
deriving DecidableEq, Repr

inductive PrimitiveTopology where
  | PointList | LineList | LineStrip | TriangleList | TriangleStrip
deriving DecidableEq, Repr

inductive IndexFormat where
  | Undefined | Uint16 | Uint32
deriving DecidableEq, Repr

inductive FrontFace where
  | CCW | CW
deriving DecidableEq, Repr

inductive CullMode where
  | None | Front | Back
deriving DecidableEq, Repr

inductive LoadOp where
  | Undefined | Clear | Load
deriving DecidableEq, Repr

inductive StoreOp where
  | Undefined | Store | Discard
deriving DecidableEq, Repr

inductive PowerPreference where
  | Undefined | LowPower | HighPerformance
deriving DecidableEq, Repr

inductive RequestAdapterStatus where
  | Success | Unavailable | Error | Unknown
deriving DecidableEq, Repr

inductive RequestDeviceStatus where
  | Success | Error | Unknown
deriving DecidableEq, Repr

/-- The two entry points of the embedded WGSL source (lines 98-108). -/
inductive EntryPoint where
  | vs_main | fs_main
deriving DecidableEq, Repr

structure SwapChainDescriptor where
  usage : TextureUsage
  format : TextureFormat
  width : Nat
  height : Nat
  presentMode : PresentMode
deriving DecidableEq, Repr

/-- A swap chain object: its handle, the surface it presents to, and the
descriptor it was created with. -/
structure SwapChain where
  handle : Handle
  surface : Option Handle
  desc : SwapChainDescriptor
deriving DecidableEq, Repr

structure BufferDescriptor where
  usage : List BufferUsage
  size : Nat
  mappedAtCreation : Bool
deriving DecidableEq, Repr

structure Buffer where
  handle : Handle
  desc : BufferDescriptor
deriving DecidableEq, Repr

structure VertexAttribute where
  format : VertexFormat
  offset : Nat
  shaderLocation : Nat
deriving DecidableEq, Repr

/-- A `wgpu::VertexBufferLayout`; `attributeCount` is the length of `attributes`. -/
structure VertexBufferLayout where
  arrayStride : Nat
  stepMode : VertexStepMode
  attributes : List VertexAttribute
deriving DecidableEq, Repr

structure ColorTargetState where
  format : TextureFormat
deriving DecidableEq, Repr

/-- A `wgpu::FragmentState`; `targetCount` is the length of `targets`. -/
structure FragmentState where
  module : Handle
  entryPoint : EntryPoint
  targets : List ColorTargetState
deriving DecidableEq, Repr

/-- A `wgpu::VertexState`; `bufferCount` is the length of `buffers`. -/
structure VertexState where
  module : Handle
  entryPoint : EntryPoint
  buffers : List VertexBufferLayout
deriving DecidableEq, Repr

structure PrimitiveState where
  topology : PrimitiveTopology
  stripIndexFormat : IndexFormat
  frontFace : FrontFace
  cullMode : CullMode
deriving DecidableEq, Repr

/-- A `wgpu::DepthStencilState` (never built by the program). -/
structure DepthStencilState where
  format : TextureFormat
deriving DecidableEq, Repr

structure RenderPipelineDescriptor where
  vertex : VertexState
  primitive : PrimitiveState
  depthStencil : Option DepthStencilState
  fragment : Option FragmentState
deriving DecidableEq, Repr

structure RenderPipeline where
  handle : Handle
  desc : RenderPipelineDescriptor
deriving DecidableEq, Repr

/-- The view returned by `GetCurrentTextureView` on the given swap chain. -/
structure TextureView where
  swapChain : Option SwapChain
deriving DecidableEq, Repr

structure RenderPassColorAttachment where
  view : TextureView
  loadOp : LoadOp
  storeOp : StoreOp
  clearValue : Color
deriving DecidableEq, Repr

/-- A `wgpu::RenderPassDepthStencilAttachment` (never built by the program). -/
structure RenderPassDepthStencilAttachment where
  view : TextureView
deriving DecidableEq, Repr

/-- A `wgpu::RenderPassDescriptor`; `colorAttachmentCount` is the length of
`colorAttachments`. -/
structure RenderPassDescriptor where
  colorAttachments : List RenderPassColorAttachment
  depthStencilAttachment : Option RenderPassDepthStencilAttachment
deriving DecidableEq, Repr

/-- Commands recorded into a render pass encoder. -/
inductive PassCommand where
  | setPipeline (pipeline : Option RenderPipeline)
  | setVertexBuffer (slot : Nat) (buffer : Option Buffer) (offset size : Nat)
  | draw (vertexCount instanceCount firstVertex firstInstance : Nat)
deriving DecidableEq, Repr

/-- A render pass as recorded between `BeginRenderPass` and `End`. -/
structure RenderPass where
  desc : RenderPassDescriptor
  commands : List PassCommand
deriving DecidableEq, Repr

/-- The result of `encoder.Finish()`. -/
structure CommandBuffer where
  passes : List RenderPass
deriving DecidableEq, Repr

/-! ## Events -/

/-- The lines the program writes to standard output. -/
inductive Message where
  | failedToInitializeGLFW
  | failedToCreateGLFWWindow
  | failedToFindAnAdapter
  | failedToCreateDevice
  | surfaceIs (surface : Handle)
  | adapterProperties
  | foundDevice (device : Handle)
  | start
  | resizingTo (width height : Int)
deriving DecidableEq, Repr

/-- One observable step of a run. -/
inductive Event where
  | print (m : Message)
  | glfwInit (ok : Bool)
  | glfwWindowHint
  | glfwCreateWindow (width height : Nat) (window : Option Handle)
  | glfwGetFramebufferSize (width height : Int)
  | glfwWindowShouldClose (close : Bool)
  | glfwPollEvents
  | glfwDestroyWindow (window : Option Handle)
  | glfwTerminate
  | createInstance (inst : Handle)
  | createSurfaceForWindow (surface : Handle)
  | requestAdapter (compatibleSurface : Option Handle) (power : PowerPreference)
  | onAdapterFound (status : RequestAdapterStatus)
  | adapterAcquire (adapter : Handle)
  | adapterGetProperties
  | requestDevice
  | onDeviceFound (status : RequestDeviceStatus)
  | deviceAcquire (device : Handle)
  | setUncapturedErrorCallback
  | createBuffer (buffer : Buffer)
  | writeBuffer (buffer : Option Buffer) (offset : Nat) (data : List Vec2) (size : Nat)
  | createSwapChain (swapChain : SwapChain)
  | createShaderModule (module : Handle)
  | createRenderPipeline (pipeline : RenderPipeline)
  | getCurrentTextureView (swapChain : Option SwapChain)
  | createCommandEncoder
  | beginRenderPass (desc : RenderPassDescriptor)
  | pass (c : PassCommand)
  | passEnd
  | encoderFinish
  | queueSubmit (commandCount : Nat) (commands : List CommandBuffer)
  | present (swapChain : Option SwapChain)
  | deviceTick
  | exit (code : Nat)
  | mainReturn (code : Nat)
deriving DecidableEq, Repr

/-! ## Program state and environment -/

/-- The globals of `main.cpp` (lines 11-19), and the next unused handle. -/
structure State where
  inst : Option Handle
  device : Option Handle
  pipeline : Option RenderPipeline
  swapChain : Option SwapChain
  surface : Option Handle
  buffer : Option Buffer
  kWidth : Nat
  kHeight : Nat
  window : Option Handle
  fresh : Handle
deriving DecidableEq, Repr

/-- The globals as initialised at program start. -/
def initialState : State :=
  { inst := none, device := none, pipeline := none, swapChain := none,
    surface := none, buffer := none, kWidth := 512, kHeight := 512,
    window := none, fresh := 0 }

/-- What the outside world answers during one run. -/
structure Env where
  /-- Result of `glfwInit()`. -/
  glfwInitOk : Bool
  /-- Whether `glfwCreateWindow` returns a non-null window. -/
  windowOk : Bool
  /-- Framebuffer size reported to `main` (line 256). -/
  fbSize : Int × Int
  adapterStatus : RequestAdapterStatus
  deviceStatus : RequestDeviceStatus
  /-- One entry per loop iteration: `glfwWindowShouldClose` answers false once
  for each entry and true afterwards; the entry is the framebuffer size
  reported in that iteration. -/
  frames : List (Int × Int)
deriving Repr

/-- State, emitted events, and whether the process was ended by `exit`. -/
structure Outcome where
  state : State
  trace : List Event
  exited : Bool
deriving Repr

/-! ## The functions of `main.cpp` -/

/-- Lines 29-38. -/
def SetupSwapChain (s : State) (surface : Option Handle) : State × List Event :=
  let scDesc : SwapChainDescriptor :=
    { usage := .RenderAttachment, format := .BGRA8Unorm,
      width := s.kWidth, height := s.kHeight, presentMode := .Fifo }
  let sc : SwapChain := { handle := s.fresh, surface := surface, desc := scDesc }
  ({ s with swapChain := some sc, fresh := s.fresh + 1 }, [Event.createSwapChain sc])

/-- The pipeline descriptor built at lines 116-161 around the shader module
created at lines 97-114.  `stepMode` and `depthStencil` are left at the
defaults of `webgpu_cpp.h` (`Vertex`, null). -/
def renderPipelineDescriptor (shaderModule : Handle) : RenderPipelineDescriptor :=
  let vertexAttributes : List VertexAttribute :=
    [{ format := .Float32x2, offset := 0, shaderLocation := 0 }]
  let vertexBufferLayout : List VertexBufferLayout :=
    [{ arrayStride := sizeofVec2, stepMode := .Vertex, attributes := vertexAttributes }]
  let colorTargetState : List ColorTargetState := [{ format := .BGRA8Unorm }]
  let fragmentState : FragmentState :=
    { module := shaderModule, entryPoint := .fs_main, targets := colorTargetState }
  { vertex := { module := shaderModule, entryPoint := .vs_main,
                buffers := vertexBufferLayout },
    primitive := { topology := .TriangleList, stripIndexFormat := .Undefined,
                   frontFace := .CCW, cullMode := .None },
    depthStencil := none,
    fragment := some fragmentState }

/-- Lines 96-163: a shader module is created, then the pipeline. -/
def CreateRenderPipeline (s : State) : State × List Event :=
  let shaderModule : Handle := s.fresh
  let p : RenderPipeline :=
    { handle := s.fresh + 1, desc := renderPipelineDescriptor shaderModule }
  ({ s with pipeline := some p, fresh := s.fresh + 2 },
   [Event.createShaderModule shaderModule, Event.createRenderPipeline p])

/-- The render pass descriptor built at lines 166-178; `depthStencilAttachment`
is left at its default (null). -/
def renderPassDescriptor (s : State) : RenderPassDescriptor :=
  let attachment : List RenderPassColorAttachment :=
    [{ view := { swapChain := s.swapChain }, loadOp := .Clear, storeOp := .Store,
       clearValue := { r := 0, g := 1, b := 1/2, a := 1 } }]
  { colorAttachments := attachment, depthStencilAttachment := none }

/-- The commands recorded into the pass at lines 182-184; `Draw(6)` takes the
defaults `instanceCount = 1`, `firstVertex = 0`, `firstInstance = 0`. -/
def renderPassCommands (s : State) : List PassCommand :=
  [ .setPipeline s.pipeline,
    .setVertexBuffer 0 s.buffer 0 (6 * sizeofVec2),
    .draw 6 1 0 0 ]

/-- Lines 165-189.  `Render` assigns no global. -/
def Render (s : State) : List Event :=
  let renderpass := renderPassDescriptor s
  let commands : CommandBuffer := { passes := [{ desc := renderpass, commands := renderPassCommands s }] }
  [Event.getCurrentTextureView s.swapChain, Event.createCommandEncoder,
   Event.beginRenderPass renderpass]
    ++ (renderPassCommands s).map Event.pass
    ++ [Event.passEnd, Event.encoderFinish, Event.queueSubmit 1 [commands]]

/-- The vertex list of lines 194-197, each coordinate with the value its
32-bit float holds: 0.5 and 0.0 are exact, `-0.55f` is `-9227469 / 2^24` and
`-0.05f` is `-13421773 / 2^28`. -/
def vertices : List Vec2 :=
  [ ⟨-1/2, -1/2⟩, ⟨1/2, -1/2⟩, ⟨0, 1/2⟩,
    ⟨-9227469/16777216, -1/2⟩, ⟨-13421773/268435456, 1/2⟩, ⟨-9227469/16777216, 1/2⟩ ]

/-- Lines 192-209: the part of `Start` before the loop. -/
def StartSetup (s : State) : State × List Event :=
  let bufferDesc : BufferDescriptor :=
    { usage := [.Vertex, .CopyDst], size := vertices.length * sizeofVec2,
      mappedAtCreation := false }
  let b : Buffer := { handle := s.fresh, desc := bufferDesc }
  let s1 : State := { s with buffer := some b, fresh := s.fresh + 1 }
  let sc := SetupSwapChain s1 s1.surface
  let rp := CreateRenderPipeline sc.1
  (rp.1,
   [Event.print .start, Event.createBuffer b,
    Event.writeBuffer s1.buffer 0 vertices (vertices.length * sizeofVec2)]
     ++ sc.2 ++ rp.2)

/-- Lines 218-227: the resize check of one loop iteration.  The comparison of
the `int` sizes with the `uint32_t` globals converts the `int` to `uint32_t`. -/
def resizeCheck (s : State) (width height : Int) : State × List Event :=
  if toU32 width != s.kWidth || toU32 height != s.kHeight then
    let s1 : State := { s with kWidth := toU32 width, kHeight := toU32 height }
    let sc := SetupSwapChain s1 s1.surface
    let rp := CreateRenderPipeline sc.1
    (rp.1, [Event.print (.resizingTo width height)] ++ sc.2 ++ rp.2)
  else
    (s, [])

/-- Lines 216-232: one iteration of the loop, with the framebuffer size that
`glfwGetFramebufferSize` reports in it. -/
def loopBody (s : State) (f : Int × Int) : State × List Event :=
  let rc := resizeCheck s f.1 f.2
  (rc.1,
   [Event.glfwPollEvents, Event.glfwGetFramebufferSize f.1 f.2]
     ++ rc.2 ++ Render rc.1 ++ [Event.present rc.1.swapChain, Event.deviceTick])

/-- Lines 215-233: the loop runs once per entry of `frames`, then
`glfwWindowShouldClose` answers true. -/
def renderLoop : State → List (Int × Int) → State × List Event
  | s, [] => (s, [Event.glfwWindowShouldClose true])
  | s, f :: fs =>
    let it := loopBody s f
    let rest := renderLoop it.1 fs
    (rest.1, Event.glfwWindowShouldClose false :: (it.2 ++ rest.2))

/-- Lines 191-239. -/
def Start (env : Env) (s : State) : Outcome :=
  let su := StartSetup s
  let lp := renderLoop su.1 env.frames
  { state := lp.1,
    trace := su.2 ++ lp.2 ++ [Event.glfwDestroyWindow lp.1.window, Event.glfwTerminate],
    exited := false }

/-- Lines 40-58.  `callback` is the function pointer carried in `pUserData`. -/
def OnDeviceFound (s : State) (status : RequestDeviceStatus) (dev : Handle)
    (callback : State → Outcome) : Outcome :=
  if status != .Success then
    { state := s, trace := [Event.print .failedToCreateDevice, Event.exit 0], exited := true }
  else
    let s1 : State := { s with device := some dev }
    let r := callback s1
    { state := r.state,
      trace := [Event.deviceAcquire dev, Event.print (.foundDevice dev),
                Event.setUncapturedErrorCallback] ++ r.trace,
      exited := r.exited }

/-- Lines 60-85.  `RequestDevice` calls `OnDeviceFound` with the status the
environment decides and a new device handle. -/
def OnAdapterFound (env : Env) (s : State) (status : RequestAdapterStatus) (adapter : Handle)
    (callback : State → Outcome) : Outcome :=
  if status != .Success then
    { state := s, trace := [Event.print .failedToFindAnAdapter, Event.exit 0], exited := true }
  else
    let s1 : State := { s with fresh := s.fresh + 1 }
    let r := OnDeviceFound s1 env.deviceStatus s.fresh callback
    { state := r.state,
      trace := [Event.adapterAcquire adapter, Event.adapterGetProperties,
                Event.print .adapterProperties, Event.requestDevice,
                Event.onDeviceFound env.deviceStatus] ++ r.trace,
      exited := r.exited }

/-- Lines 87-94.  `RequestAdapter` calls `OnAdapterFound` with the status the
environment decides and a new adapter handle. -/
def GetDevice (env : Env) (s : State) (callback : State → Outcome) : Outcome :=
  let s1 : State := { s with fresh := s.fresh + 1 }
  let r := OnAdapterFound env s1 env.adapterStatus s.fresh callback
  { state := r.state,
    trace := [Event.requestAdapter s.surface .HighPerformance,
              Event.onAdapterFound env.adapterStatus] ++ r.trace,
    exited := r.exited }

/-- Lines 241-279: the whole run. -/
def main (env : Env) : List Event :=
  if !env.glfwInitOk then
    [Event.glfwInit false, Event.print .failedToInitializeGLFW, Event.mainReturn EXIT_FAILURE]
  else if !env.windowOk then
    [Event.glfwInit true, Event.glfwWindowHint,
     Event.glfwCreateWindow initialState.kWidth initialState.kHeight none,
     Event.print .failedToCreateGLFWWindow, Event.glfwTerminate,
     Event.mainReturn EXIT_FAILURE]
  else
    let s0 := initialState
    let s1 : State := { s0 with window := some s0.fresh, fresh := s0.fresh + 1 }
    let s2 : State := { s1 with kWidth := toU32 env.fbSize.1, kHeight := toU32 env.fbSize.2 }
    let s3 : State := { s2 with inst := some s2.fresh, fresh := s2.fresh + 1 }
    let s4 : State := { s3 with surface := some s3.fresh, fresh := s3.fresh + 1 }
    let r := GetDevice env s4 (Start env)
    [Event.glfwInit true, Event.glfwWindowHint,
     Event.glfwCreateWindow s0.kWidth s0.kHeight s1.window,
     Event.glfwGetFramebufferSize env.fbSize.1 env.fbSize.2,
     Event.createInstance s2.fresh,
     Event.createSurfaceForWindow s3.fresh,
     Event.print (.surfaceIs s3.fresh)]
      ++ r.trace
      ++ (if r.exited then []
          else [Event.glfwDestroyWindow r.state.window, Event.glfwTerminate, Event.mainReturn 0])

/-! ## Classifying events -/

/-- A recorded `Draw` call. -/
def Event.isDraw : Event → Bool
  | .pass (.draw _ _ _ _) => true
  | _ => false

/-- A `Queue::Submit` call. -/
def Event.isSubmit : Event → Bool
  | .queueSubmit _ _ => true
  | _ => false

/-- A `BeginRenderPass` call. -/
def Event.isBeginRenderPass : Event → Bool
  | .beginRenderPass _ => true
  | _ => false

/-- A `CreateBuffer` or `WriteBuffer` call. -/
def Event.isBufferUpload : Event → Bool
  | .createBuffer _ => true
  | .writeBuffer _ _ _ _ => true
  | _ => false

/-- A `glfwDestroyWindow` call. -/
def Event.isDestroyWindow : Event → Bool
  | .glfwDestroyWindow _ => true
  | _ => false

/-- A `glfwTerminate` call. -/
def Event.isTerminate : Event → Bool
  | .glfwTerminate => true
  | _ => false

/-- Every acquisition of the run succeeds: GLFW initialises, a window is
obtained, and both requests report `Success`. -/
def Env.succeeds (env : Env) : Bool :=
  env.glfwInitOk && env.windowOk && (env.adapterStatus == .Success)
    && (env.deviceStatus == .Success)

/-- The globals with which `Start` is entered in a run where every acquisition
succeeds: window, instance, surface, adapter and device took the handles 0-4. -/
def startState (env : Env) : State :=
  { inst := some 1, device := some 4, pipeline := none, swapChain := none,
    surface := some 2, buffer := none,
    kWidth := toU32 env.fbSize.1, kHeight := toU32 env.fbSize.2,
    window := some 0, fresh := 5 }

/-- The events of a run where every acquisition succeeds, up to the entry
into `Start`. -/
def startupEvents (env : Env) : List Event :=
  [ Event.glfwInit true, Event.glfwWindowHint,
    Event.glfwCreateWindow 512 512 (some 0),
    Event.glfwGetFramebufferSize env.fbSize.1 env.fbSize.2,
    Event.createInstance 1,
    Event.createSurfaceForWindow 2,
    Event.print (.surfaceIs 2),
    Event.requestAdapter (some 2) .HighPerformance,
    Event.onAdapterFound .Success,
    Event.adapterAcquire 3, Event.adapterGetProperties,
    Event.print .adapterProperties,
    Event.requestDevice,
    Event.onDeviceFound .Success,
    Event.deviceAcquire 4, Event.print (.foundDevice 4),
    Event.setUncapturedErrorCallback ]

/-- A `glfwCreateWindow` call. -/
def Event.isCreateWindow : Event → Bool
  | .glfwCreateWindow _ _ _ => true
  | _ => false

/-- A `wgpu::CreateInstance` call. -/
def Event.isCreateInstance : Event → Bool
  | .createInstance _ => true
  | _ => false

/-- A `RequestAdapter` call. -/
def Event.isRequestAdapter : Event → Bool
  | .requestAdapter _ _ => true
  | _ => false

/-- A `RequestDevice` call. -/
def Event.isRequestDevice : Event → Bool
  | .requestDevice => true
  | _ => false

/-- The assignment `device = wgpu::Device::Acquire(dev)`. -/
def Event.isDeviceAcquire : Event → Bool
  | .deviceAcquire _ => true
  | _ => false

/-- The first statement of `Start` (it prints "Start"). -/
def Event.isStartEntry : Event → Bool
  | .print .start => true
  | _ => false

/-- A run in which every acquisition succeeds and the window closes after
three frames, the second of which reports a new framebuffer size. -/
def sampleRun : Env :=
  { glfwInitOk := true, windowOk := true, fbSize := (512, 512),
    adapterStatus := .Success, deviceStatus := .Success,
    frames := [(512, 512), (640, 480), (640, 480)] }

/-- A run in which `glfwInit` fails. -/
def initFailureRun : Env := { sampleRun with glfwInitOk := false }

/-- A run in which `glfwCreateWindow` returns null. -/
def windowFailureRun : Env := { sampleRun with windowOk := false }

/-- A run in which no adapter is available. -/
def adapterFailureRun : Env := { sampleRun with adapterStatus := .Unavailable }

/-- A run in which the device request reports an error. -/
def deviceFailureRun : Env := { sampleRun with deviceStatus := .Error }

/-- The run in which every acquisition succeeds, `main` is told the framebuffer
size `fb`, and the loop runs over `frames`. -/
def successRun (fb : Int × Int) (frames : List (Int × Int)) : Env :=
  { glfwInitOk := true, windowOk := true, fbSize := fb,
    adapterStatus := .Success, deviceStatus := .Success, frames := frames }

/-- A call that creates a graphics resource. -/
def Event.isCreate : Event → Bool
  | .createInstance _ => true
  | .createSurfaceForWindow _ => true
  | .createBuffer _ => true
  | .createSwapChain _ => true
  | .createShaderModule _ => true
  | .createRenderPipeline _ => true
  | _ => false

/-- A `CreateBuffer` call. -/
def Event.isCreateBuffer : Event → Bool
  | .createBuffer _ => true
  | _ => false

/-- A `CreateSwapChain` call. -/
def Event.isCreateSwapChain : Event → Bool
  | .createSwapChain _ => true
  | _ => false

/-- A `CreateRenderPipeline` call. -/
def Event.isCreateRenderPipeline : Event → Bool
  | .createRenderPipeline _ => true
  | _ => false

/-- A call made by `Render` (lines 165-189). -/
def Event.isRenderCall : Event → Bool
  | .getCurrentTextureView _ => true
  | .createCommandEncoder => true
  | .beginRenderPass _ => true
  | .pass _ => true
  | .passEnd => true
  | .encoderFinish => true
  | .queueSubmit _ _ => true
  | _ => false

/-- The four steps of a loop iteration named by the specification. -/
inductive LoopPhase where
  | pollEvents | resizeCheck | render | present
deriving DecidableEq, Repr

/-- The call that opens each step of a loop iteration: `glfwPollEvents`, the
`glfwGetFramebufferSize` of the resize check, the first call of `Render`, and
`Present`. -/
def Event.phase : Event → Option LoopPhase
  | .glfwPollEvents => some .pollEvents
  | .glfwGetFramebufferSize _ _ => some .resizeCheck
  | .getCurrentTextureView _ => some .render
  | .present _ => some .present
  | _ => none

/-- The render passes handed to the queue by the `Submit` calls of a trace, in
order. -/
def submittedPasses (trace : List Event) : List RenderPass :=
  trace.flatMap fun e =>
    match e with
    | .queueSubmit _ commands => commands.flatMap CommandBuffer.passes
    | _ => []

/-- For each `GetCurrentTextureView` call of a trace, in order, the width and
height the swap chain it is called on was created with (`none` for a null swap
chain). -/
def renderTargetSizes (trace : List Event) : List (Option (Nat × Nat)) :=
  trace.filterMap fun e =>
    match e with
    | .getCurrentTextureView sc => some (sc.map fun c => (c.desc.width, c.desc.height))
    | _ => none

/-- Vertex fetch of a non-indexed draw, as WebGPU defines it: the byte offsets,
inside the buffer bound at `bindOffset`, read through `layout`.  With step mode
`Vertex` the element index runs over the `vertexCount` vertices from
`firstVertex`, with step mode `Instance` over the `instanceCount` instances from
`firstInstance`; element `i` reads, for each attribute, `byteSize` bytes from
`bindOffset + i * arrayStride + offset`. -/
def fetchedBytes (layout : VertexBufferLayout) (bindOffset : Nat)
    (vertexCount instanceCount firstVertex firstInstance : Nat) : List Nat :=
  let elements : List Nat :=
    match layout.stepMode with
    | .Vertex => (List.range vertexCount).map fun i => firstVertex + i
    | .Instance => (List.range instanceCount).map fun i => firstInstance + i
  elements.flatMap fun i =>
    layout.attributes.flatMap fun a =>
      (List.range a.format.byteSize).map fun k =>
        bindOffset + i * layout.arrayStride + a.offset + k

/-- Number of whole primitives and of left-over vertices that `vertexCount`
vertices make under a topology (list topologies only; strips give `none`). -/
def primitivesOf (topology : PrimitiveTopology) (vertexCount : Nat) : Option (Nat × Nat) :=
  match topology with
  | .PointList => some (vertexCount, 0)
  | .LineList => some (vertexCount / 2, vertexCount % 2)
  | .TriangleList => some (vertexCount / 3, vertexCount % 3)
  | _ => none

/-- The globals are those of a running loop: the swap chain was created for the
current surface with the recorded size, the pipeline with the descriptor of
`CreateRenderPipeline`, and the buffer with the descriptor of `Start`. -/
def Ready (s : State) : Prop :=
  (∃ h : Handle, s.swapChain = some
      { handle := h, surface := s.surface,
        desc := { usage := .RenderAttachment, format := .BGRA8Unorm, width := s.kWidth,
                  height := s.kHeight, presentMode := .Fifo } })
  ∧ (∃ h m : Handle, s.pipeline = some { handle := h, desc := renderPipelineDescriptor m })
  ∧ (∃ h : Handle, s.buffer = some
      { handle := h,
        desc := { usage := [.Vertex, .CopyDst], size := 48, mappedAtCreation := false } })

/-- A `GetCurrentTextureView` call. -/
def Event.isGetCurrentTextureView : Event → Bool
  | .getCurrentTextureView _ => true
  | _ => false

/-- One of the calls that chain the startup: the two requests, the two
callbacks, the assignment of the global `device`, and the entry into `Start`. -/
def Event.isStartupChain : Event → Bool
  | .requestAdapter _ _ => true
  | .onAdapterFound _ => true
  | .requestDevice => true
  | .onDeviceFound _ => true
  | .deviceAcquire _ => true
  | .print .start => true
  | _ => false

/-! ## Lemmas on the loop -/

theorem renderLoop_countP (p : Event → Bool) (k : Nat)
    (hc : ∀ b, p (Event.glfwWindowShouldClose b) = false)
    (hb : ∀ s f, (loopBody s f).2.countP p = k) :
    ∀ (fs : List (Int × Int)) (s : State), (renderLoop s fs).2.countP p = k * fs.length := by
  intro fs
  induction fs with
  | nil => intro s; simp [renderLoop, hc]
  | cons f fs ih =>
    intro s
    simp only [renderLoop, List.countP_cons, List.countP_append, hc, hb, ih, List.length_cons]
    simp [Nat.mul_add, Nat.add_comm]

theorem renderLoop_filter_single (p : Event → Bool) (x : Event)
    (hc : ∀ b, p (Event.glfwWindowShouldClose b) = false)
    (hb : ∀ s f, (loopBody s f).2.filter p = [x]) :
    ∀ (fs : List (Int × Int)) (s : State),
      (renderLoop s fs).2.filter p = List.replicate fs.length x := by
  intro fs
  induction fs with
  | nil => intro s; simp [renderLoop, hc]
  | cons f fs ih =>
    intro s
    simp [renderLoop, List.filter_cons, hc, hb, ih, List.replicate_succ]

/-! ## C1 -/

/-- C1: every invocation of `Render` emits exactly the calls
GetCurrentTextureView, CreateCommandEncoder, BeginRenderPass, SetPipeline,
SetVertexBuffer, Draw(6), End, Finish, Submit, and submits one command buffer
holding one render pass whose commands are SetPipeline, SetVertexBuffer and one
Draw of 6 vertices.  Each loop iteration (one frame) contains exactly one draw
and one submit, and a loop of `n` frames contains exactly `n` draws, each of
them `Draw(6)`. -/
theorem render_records_one_draw_of_six (s : State) (f : Int × Int)
    (frames : List (Int × Int)) :
    Render s =
      [ Event.getCurrentTextureView s.swapChain, Event.createCommandEncoder,
        Event.beginRenderPass (renderPassDescriptor s),
        Event.pass (.setPipeline s.pipeline),
        Event.pass (.setVertexBuffer 0 s.buffer 0 (6 * sizeofVec2)),
        Event.pass (.draw 6 1 0 0),
        Event.passEnd, Event.encoderFinish,
        Event.queueSubmit 1
          [{ passes := [{ desc := renderPassDescriptor s,
                          commands := [ .setPipeline s.pipeline,
                                        .setVertexBuffer 0 s.buffer 0 (6 * sizeofVec2),
                                        .draw 6 1 0 0 ] }] }] ]
    ∧ (Render s).filter Event.isDraw = [Event.pass (.draw 6 1 0 0)]
    ∧ (Render s).countP Event.isSubmit = 1
    ∧ (loopBody s f).2.filter Event.isDraw = [Event.pass (.draw 6 1 0 0)]
    ∧ (loopBody s f).2.countP Event.isSubmit = 1
    ∧ (renderLoop s frames).2.filter Event.isDraw
        = List.replicate frames.length (Event.pass (.draw 6 1 0 0))
    ∧ (renderLoop s frames).2.countP Event.isSubmit = frames.length := by
  have hbody : ∀ (s : State) (f : Int × Int),
      (loopBody s f).2.filter Event.isDraw = [Event.pass (.draw 6 1 0 0)] := by
    intro s f
    simp only [loopBody, resizeCheck]
    split <;> simp [Render, renderPassCommands, SetupSwapChain, CreateRenderPipeline,
      Event.isDraw, List.filter_cons]
  have hsub : ∀ (s : State) (f : Int × Int),
      (loopBody s f).2.countP Event.isSubmit = 1 := by
    intro s f
    simp only [loopBody, resizeCheck]
    split <;> simp [Render, renderPassCommands, SetupSwapChain, CreateRenderPipeline,
      Event.isSubmit, List.countP_cons]
  refine ⟨rfl, ?_, ?_, hbody s f, hsub s f, ?_, ?_⟩
  · simp [Render, renderPassCommands, Event.isDraw, List.filter_cons]
  · simp [Render, renderPassCommands, Event.isSubmit, List.countP_cons]
  · exact renderLoop_filter_single _ _ (fun _ => rfl) hbody frames s
  · simpa using renderLoop_countP _ 1 (fun _ => rfl) hsub frames s

/-! ## Shape of a successful run -/

theorem renderLoop_filter_nil (p : Event → Bool)
    (hc : ∀ b, p (Event.glfwWindowShouldClose b) = false)
    (hb : ∀ s f, (loopBody s f).2.filter p = []) :
    ∀ (fs : List (Int × Int)) (s : State), (renderLoop s fs).2.filter p = [] := by
  intro fs
  induction fs with
  | nil => intro s; simp [renderLoop, hc]
  | cons f fs ih =>
    intro s
    simp [renderLoop, List.filter_cons, hc, hb, ih]

theorem succeeds_iff (env : Env) :
    env.succeeds = true ↔
      env.glfwInitOk = true ∧ env.windowOk = true ∧ env.adapterStatus = .Success
        ∧ env.deviceStatus = .Success := by
  simp [Env.succeeds, and_assoc]

theorem renderLoop_window (fs : List (Int × Int)) :
    ∀ s : State, (renderLoop s fs).1.window = s.window := by
  induction fs with
  | nil => intro s; rfl
  | cons f fs ih =>
    intro s
    simp only [renderLoop, ih]
    simp only [loopBody, resizeCheck]
    split <;> simp [SetupSwapChain, CreateRenderPipeline]

theorem main_of_succeeds (env : Env) (h : env.succeeds = true) :
    main env = startupEvents env ++ (Start env (startState env)).trace
      ++ [Event.glfwDestroyWindow (some 0), Event.glfwTerminate, Event.mainReturn 0] := by
  obtain ⟨h1, h2, h3, h4⟩ := (succeeds_iff env).1 h
  simp [main, GetDevice, OnAdapterFound, OnDeviceFound, h1, h2, h3, h4, initialState,
    startupEvents, startState, Start, renderLoop_window, StartSetup, SetupSwapChain,
    CreateRenderPipeline]

theorem renderLoop_ends (fs : List (Int × Int)) :
    ∀ s : State, ∃ body : List Event,
      (renderLoop s fs).2 = body ++ [Event.glfwWindowShouldClose true] := by
  induction fs with
  | nil => intro s; exact ⟨[], rfl⟩
  | cons f fs ih =>
    intro s
    obtain ⟨body, hb⟩ := ih (loopBody s f).1
    refine ⟨Event.glfwWindowShouldClose false :: ((loopBody s f).2 ++ body), ?_⟩
    simp [renderLoop, hb]

theorem Start_trace (env : Env) (s : State) :
    (Start env s).trace = (StartSetup s).2 ++ (renderLoop (StartSetup s).1 env.frames).2
      ++ [Event.glfwDestroyWindow s.window, Event.glfwTerminate] := by
  simp [Start, renderLoop_window, StartSetup, SetupSwapChain, CreateRenderPipeline]

/-! ## The loop invariant -/

theorem StartSetup_ready (s : State) : Ready (StartSetup s).1 := by
  refine ⟨⟨s.fresh + 1, ?_⟩, ⟨s.fresh + 3, s.fresh + 2, ?_⟩, ⟨s.fresh, ?_⟩⟩
  · simp [StartSetup, SetupSwapChain, CreateRenderPipeline]
  · simp [StartSetup, SetupSwapChain, CreateRenderPipeline]
  · have hv : vertices.length = 6 := rfl
    simp [StartSetup, SetupSwapChain, CreateRenderPipeline, hv, sizeofVec2]

theorem resizeCheck_ready (s : State) (w h : Int) (hs : Ready s) :
    Ready (resizeCheck s w h).1 := by
  unfold resizeCheck
  split
  · refine ⟨⟨s.fresh, ?_⟩, ⟨s.fresh + 2, s.fresh + 1, ?_⟩, ?_⟩
    · simp [SetupSwapChain, CreateRenderPipeline]
    · simp [SetupSwapChain, CreateRenderPipeline]
    · simpa [SetupSwapChain, CreateRenderPipeline] using hs.2.2
  · exact hs

theorem resizeCheck_size (s : State) (w h : Int) :
    (resizeCheck s w h).1.kWidth = toU32 w ∧ (resizeCheck s w h).1.kHeight = toU32 h := by
  unfold resizeCheck
  split
  · simp [SetupSwapChain, CreateRenderPipeline]
  · rename_i hc
    simp at hc
    exact ⟨hc.1.symm, hc.2.symm⟩

theorem submittedPasses_append (a b : List Event) :
    submittedPasses (a ++ b) = submittedPasses a ++ submittedPasses b := by
  simp [submittedPasses]

theorem submittedPasses_Render (s : State) :
    submittedPasses (Render s)
      = [{ desc := renderPassDescriptor s, commands := renderPassCommands s }] := by
  simp [submittedPasses, Render, renderPassCommands]

theorem submittedPasses_resizeCheck (s : State) (w h : Int) :
    submittedPasses (resizeCheck s w h).2 = [] := by
  unfold resizeCheck
  split <;> simp [submittedPasses, SetupSwapChain, CreateRenderPipeline]

theorem submittedPasses_loopBody (s : State) (f : Int × Int) :
    submittedPasses (loopBody s f).2
      = [{ desc := renderPassDescriptor (loopBody s f).1,
           commands := renderPassCommands (loopBody s f).1 }] := by
  simp only [loopBody, submittedPasses_append, submittedPasses_Render,
    submittedPasses_resizeCheck]
  simp [submittedPasses]

theorem submittedPasses_renderLoop (P : State → Prop)
    (hP : ∀ (s : State) (w h : Int), P s → P (resizeCheck s w h).1)
    (fs : List (Int × Int)) :
    ∀ s : State, P s →
      (submittedPasses (renderLoop s fs).2).length = fs.length
      ∧ ∀ rp ∈ submittedPasses (renderLoop s fs).2,
          ∃ t : State, P t
            ∧ rp = { desc := renderPassDescriptor t, commands := renderPassCommands t } := by
  induction fs with
  | nil => intro s _; simp [renderLoop, submittedPasses]
  | cons f fs ih =>
    intro s hs
    have hr : P (loopBody s f).1 := hP s f.1 f.2 hs
    obtain ⟨hl, hp⟩ := ih (loopBody s f).1 hr
    have hsplit : submittedPasses (renderLoop s (f :: fs)).2
        = submittedPasses (loopBody s f).2
          ++ submittedPasses (renderLoop (loopBody s f).1 fs).2 := by
      simp only [renderLoop]
      rw [← submittedPasses_append]
      simp [submittedPasses]
    rw [hsplit, submittedPasses_loopBody]
    refine ⟨by simp [hl], ?_⟩
    intro rp hrp
    simp only [List.singleton_append, List.mem_cons] at hrp
    rcases hrp with hrp | hrp
    · exact ⟨_, hr, hrp⟩
    · exact hp rp hrp

theorem submittedPasses_main (env : Env) (h : env.succeeds = true) :
    (submittedPasses (main env)).length = env.frames.length
    ∧ ∀ rp ∈ submittedPasses (main env),
        ∃ t : State, Ready t
          ∧ rp = { desc := renderPassDescriptor t, commands := renderPassCommands t } := by
  have hm : submittedPasses (main env)
      = submittedPasses (renderLoop (StartSetup (startState env)).1 env.frames).2 := by
    rw [main_of_succeeds env h, Start_trace]
    simp only [submittedPasses_append]
    simp [submittedPasses, startupEvents, StartSetup, SetupSwapChain, CreateRenderPipeline]
  rw [hm]
  exact submittedPasses_renderLoop Ready resizeCheck_ready env.frames _ (StartSetup_ready _)

/-! ## Swap chain size seen by `Render` -/

theorem renderTargetSizes_append (a b : List Event) :
    renderTargetSizes (a ++ b) = renderTargetSizes a ++ renderTargetSizes b := by
  simp [renderTargetSizes]

theorem renderTargetSizes_resizeCheck (s : State) (w h : Int) :
    renderTargetSizes (resizeCheck s w h).2 = [] := by
  unfold resizeCheck
  split <;> simp [renderTargetSizes, SetupSwapChain, CreateRenderPipeline]

theorem renderTargetSizes_loopBody (s : State) (f : Int × Int) (hs : Ready s) :
    renderTargetSizes (loopBody s f).2 = [some (toU32 f.1, toU32 f.2)] := by
  obtain ⟨⟨hh, hsc⟩, _, _⟩ := resizeCheck_ready s f.1 f.2 hs
  obtain ⟨hw, hht⟩ := resizeCheck_size s f.1 f.2
  simp only [loopBody, renderTargetSizes_append, renderTargetSizes_resizeCheck]
  simp [renderTargetSizes, Render, renderPassCommands, hsc, hw, hht]

theorem renderTargetSizes_renderLoop (fs : List (Int × Int)) :
    ∀ s : State, Ready s →
      renderTargetSizes (renderLoop s fs).2
        = fs.map (fun f => some (toU32 f.1, toU32 f.2)) := by
  induction fs with
  | nil => intro s _; simp [renderLoop, renderTargetSizes]
  | cons f fs ih =>
    intro s hs
    have hr : Ready (loopBody s f).1 := resizeCheck_ready s f.1 f.2 hs
    have hsplit : renderTargetSizes (renderLoop s (f :: fs)).2
        = renderTargetSizes (loopBody s f).2
          ++ renderTargetSizes (renderLoop (loopBody s f).1 fs).2 := by
      simp only [renderLoop]
      rw [← renderTargetSizes_append]
      simp [renderTargetSizes]
    rw [hsplit, renderTargetSizes_loopBody s f hs, ih _ hr]
    simp

/-! ## Order of a successful run -/

theorem renderLoop_phases (fs : List (Int × Int)) :
    ∀ s : State,
      (renderLoop s fs).2.filterMap Event.phase
        = fs.flatMap (fun _ => [LoopPhase.pollEvents, LoopPhase.resizeCheck,
                                LoopPhase.render, LoopPhase.present]) := by
  induction fs with
  | nil => intro s; simp [renderLoop, Event.phase]
  | cons f fs ih =>
    intro s
    have hb : (loopBody s f).2.filterMap Event.phase
        = [LoopPhase.pollEvents, LoopPhase.resizeCheck, LoopPhase.render,
           LoopPhase.present] := by
      simp only [loopBody, resizeCheck]
      split <;> simp [Render, renderPassCommands, SetupSwapChain, CreateRenderPipeline,
        Event.phase, List.filterMap_cons]
    simp only [renderLoop, List.filterMap_cons, List.filterMap_append, hb, ih, Event.phase,
      List.flatMap_cons]

theorem setup_before_render (env : Env) (pre post rest : List Event) (e : Event)
    (hsplit : startupEvents env ++ (StartSetup (startState env)).2 ++ rest = pre ++ e :: post)
    (he : e.isRenderCall = true) :
    pre.any Event.isCreateBuffer = true ∧ pre.any Event.isCreateSwapChain = true
      ∧ pre.any Event.isCreateRenderPipeline = true := by
  have hno : ∀ x ∈ startupEvents env ++ (StartSetup (startState env)).2,
      x.isRenderCall = false := by
    simp [startupEvents, StartSetup, SetupSwapChain, CreateRenderPipeline, Event.isRenderCall]
  have hA : (startupEvents env ++ (StartSetup (startState env)).2).any Event.isCreateBuffer
        = true
      ∧ (startupEvents env ++ (StartSetup (startState env)).2).any Event.isCreateSwapChain
        = true
      ∧ (startupEvents env ++ (StartSetup (startState env)).2).any
          Event.isCreateRenderPipeline = true := by
    simp [startupEvents, StartSetup, SetupSwapChain, CreateRenderPipeline,
      Event.isCreateBuffer, Event.isCreateSwapChain, Event.isCreateRenderPipeline]
  rcases List.append_eq_append_iff.1 hsplit with ⟨a', hpre, _⟩ | ⟨c', hc, hrest⟩
  · rw [hpre]
    simp only [List.any_append, hA.1, hA.2.1, hA.2.2, Bool.true_or, and_self]
  · cases c' with
    | nil =>
      rw [List.append_nil] at hc
      rw [← hc]
      exact hA
    | cons x c'' =>
      simp only [List.cons_append, List.cons.injEq] at hrest
      have hx : x ∈ startupEvents env ++ (StartSetup (startState env)).2 := by
        rw [hc]; simp
      have := hno x hx
      rw [← hrest.1, he] at this
      cases this

/-! ## The buffer bound by `Render` -/

theorem resizeCheck_buffer (s : State) (w h : Int) :
    (resizeCheck s w h).1.buffer = s.buffer := by
  unfold resizeCheck
  split <;> simp [SetupSwapChain, CreateRenderPipeline]

theorem submittedPasses_main_buffer (env : Env) (h : env.succeeds = true) :
    ∀ rp ∈ submittedPasses (main env),
      ∃ t : State, (Ready t ∧ t.buffer = some ⟨5, ⟨[.Vertex, .CopyDst], 48, false⟩⟩)
        ∧ rp = { desc := renderPassDescriptor t, commands := renderPassCommands t } := by
  have hm : submittedPasses (main env)
      = submittedPasses (renderLoop (StartSetup (startState env)).1 env.frames).2 := by
    rw [main_of_succeeds env h, Start_trace]
    simp only [submittedPasses_append]
    simp [submittedPasses, startupEvents, StartSetup, SetupSwapChain, CreateRenderPipeline]
  have hv : vertices.length = 6 := rfl
  rw [hm]
  refine (submittedPasses_renderLoop
    (fun t => Ready t ∧ t.buffer = some ⟨5, ⟨[.Vertex, .CopyDst], 48, false⟩⟩)
    (fun s w h hs => ⟨resizeCheck_ready s w h hs.1, (resizeCheck_buffer s w h).trans hs.2⟩)
    env.frames _ ⟨StartSetup_ready _, ?_⟩).2
  simp [StartSetup, SetupSwapChain, CreateRenderPipeline, startState, hv, sizeofVec2]

theorem mem_before_render (env : Env) (pre post rest : List Event) (e x : Event)
    (hsplit : startupEvents env ++ (StartSetup (startState env)).2 ++ rest = pre ++ e :: post)
    (he : e.isRenderCall = true)
    (hx : x ∈ startupEvents env ++ (StartSetup (startState env)).2) : x ∈ pre := by
  have hno : ∀ y ∈ startupEvents env ++ (StartSetup (startState env)).2,
      y.isRenderCall = false := by
    simp [startupEvents, StartSetup, SetupSwapChain, CreateRenderPipeline, Event.isRenderCall]
  rcases List.append_eq_append_iff.1 hsplit with ⟨a', hpre, _⟩ | ⟨c', hc, hrest⟩
  · rw [hpre]
    exact List.mem_append_left _ hx
  · cases c' with
    | nil =>
      rw [List.append_nil] at hc
      rw [← hc]
      exact hx
    | cons y c'' =>
      simp only [List.cons_append, List.cons.injEq] at hrest
      have hy : y ∈ startupEvents env ++ (StartSetup (startState env)).2 := by
        rw [hc]; simp
      have := hno y hy
      rw [← hrest.1, he] at this
      cases this

/-! ## C2 -/

/-- C2: the vertex list has six entries, `6 * sizeof(vec2)` is 48 bytes, and
`Start` (entered with any globals) creates exactly one buffer, of 48 bytes, and
writes it exactly once: all six vertices, 48 bytes, at offset 0.  In a run in
which every acquisition succeeds these are the only buffer creation and the
only buffer write of the whole run. -/
theorem start_uploads_six_vertices_once (env : Env) (s : State)
    (h : env.succeeds = true) :
    vertices.length = 6
    ∧ 6 * sizeofVec2 = 48
    ∧ (Start env s).trace.filter Event.isBufferUpload
        = [ Event.createBuffer
              { handle := s.fresh,
                desc := { usage := [.Vertex, .CopyDst], size := 48, mappedAtCreation := false } },
            Event.writeBuffer
              (some { handle := s.fresh,
                      desc := { usage := [.Vertex, .CopyDst], size := 48,
                                mappedAtCreation := false } })
              0 vertices 48 ]
    ∧ (main env).filter Event.isBufferUpload
        = [ Event.createBuffer
              { handle := 5,
                desc := { usage := [.Vertex, .CopyDst], size := 48, mappedAtCreation := false } },
            Event.writeBuffer
              (some { handle := 5,
                      desc := { usage := [.Vertex, .CopyDst], size := 48,
                                mappedAtCreation := false } })
              0 vertices 48 ] := by
  have hloop : ∀ (fs : List (Int × Int)) (s : State),
      (renderLoop s fs).2.filter Event.isBufferUpload = [] := by
    apply renderLoop_filter_nil _ (fun _ => rfl)
    intro s f
    simp only [loopBody, resizeCheck]
    split <;> simp [Render, renderPassCommands, SetupSwapChain, CreateRenderPipeline,
      Event.isBufferUpload, List.filter_cons]
  have hstart : ∀ s : State, (Start env s).trace.filter Event.isBufferUpload
        = [ Event.createBuffer
              { handle := s.fresh,
                desc := { usage := [.Vertex, .CopyDst], size := 48, mappedAtCreation := false } },
            Event.writeBuffer
              (some { handle := s.fresh,
                      desc := { usage := [.Vertex, .CopyDst], size := 48,
                                mappedAtCreation := false } })
              0 vertices 48 ] := by
    intro s
    have hv : vertices.length = 6 := rfl
    simp [Start, StartSetup, SetupSwapChain, CreateRenderPipeline, hloop, hv, sizeofVec2,
      Event.isBufferUpload, List.filter_cons]
  refine ⟨rfl, rfl, hstart s, ?_⟩
  rw [main_of_succeeds env h]
  simp only [List.filter_append, hstart]
  simp [startupEvents, startState, Event.isBufferUpload, List.filter_cons]

/-- The sample run satisfies the hypothesis of C2, and the upload is as stated there. -/
theorem start_uploads_six_vertices_once_witness :
    sampleRun.succeeds = true
    ∧ vertices.length = 6
    ∧ 6 * sizeofVec2 = 48
    ∧ (Start sampleRun initialState).trace.filter Event.isBufferUpload
        = [ Event.createBuffer
              { handle := 0,
                desc := { usage := [.Vertex, .CopyDst], size := 48, mappedAtCreation := false } },
            Event.writeBuffer
              (some { handle := 0,
                      desc := { usage := [.Vertex, .CopyDst], size := 48,
                                mappedAtCreation := false } })
              0 vertices 48 ]
    ∧ (main sampleRun).filter Event.isBufferUpload
        = [ Event.createBuffer
              { handle := 5,
                desc := { usage := [.Vertex, .CopyDst], size := 48, mappedAtCreation := false } },
            Event.writeBuffer
              (some { handle := 5,
                      desc := { usage := [.Vertex, .CopyDst], size := 48,
                                mappedAtCreation := false } })
              0 vertices 48 ] :=
  ⟨by decide, start_uploads_six_vertices_once sampleRun initialState (by decide)⟩

/-! ## C3 -/

/-- C3: each failure path prints its message and ends the process, and no
later step of the startup sequence is performed.  If `glfwInit` fails the run
is: print, return `EXIT_FAILURE` (no window is created).  If no window is
obtained the run is: print, `glfwTerminate`, return `EXIT_FAILURE` (no instance
is created, no adapter requested).  If the adapter status is not `Success` the
callback prints and calls `exit(0)` (no device is requested).  If the device
status is not `Success` the callback prints and calls `exit(0)` (the device is
not acquired and `Start` is not entered). -/
theorem failure_paths_terminate (env : Env) :
    (env.glfwInitOk = false →
      main env = [ Event.glfwInit false, Event.print .failedToInitializeGLFW,
                   Event.mainReturn EXIT_FAILURE ]
      ∧ (main env).any Event.isCreateWindow = false)
    ∧ (env.glfwInitOk = true → env.windowOk = false →
      main env = [ Event.glfwInit true, Event.glfwWindowHint,
                   Event.glfwCreateWindow 512 512 none,
                   Event.print .failedToCreateGLFWWindow, Event.glfwTerminate,
                   Event.mainReturn EXIT_FAILURE ]
      ∧ (main env).any (fun e => e.isCreateInstance || e.isRequestAdapter) = false)
    ∧ (env.glfwInitOk = true → env.windowOk = true → env.adapterStatus ≠ .Success →
      main env = [ Event.glfwInit true, Event.glfwWindowHint,
                   Event.glfwCreateWindow 512 512 (some 0),
                   Event.glfwGetFramebufferSize env.fbSize.1 env.fbSize.2,
                   Event.createInstance 1, Event.createSurfaceForWindow 2,
                   Event.print (.surfaceIs 2),
                   Event.requestAdapter (some 2) .HighPerformance,
                   Event.onAdapterFound env.adapterStatus,
                   Event.print .failedToFindAnAdapter, Event.exit 0 ]
      ∧ (main env).any Event.isRequestDevice = false)
    ∧ (env.glfwInitOk = true → env.windowOk = true → env.adapterStatus = .Success →
        env.deviceStatus ≠ .Success →
      main env = [ Event.glfwInit true, Event.glfwWindowHint,
                   Event.glfwCreateWindow 512 512 (some 0),
                   Event.glfwGetFramebufferSize env.fbSize.1 env.fbSize.2,
                   Event.createInstance 1, Event.createSurfaceForWindow 2,
                   Event.print (.surfaceIs 2),
                   Event.requestAdapter (some 2) .HighPerformance,
                   Event.onAdapterFound .Success,
                   Event.adapterAcquire 3, Event.adapterGetProperties,
                   Event.print .adapterProperties,
                   Event.requestDevice,
                   Event.onDeviceFound env.deviceStatus,
                   Event.print .failedToCreateDevice, Event.exit 0 ]
      ∧ (main env).any (fun e => e.isDeviceAcquire || e.isStartEntry) = false) := by
  refine ⟨?_, ?_, ?_, ?_⟩
  · intro h1
    have hm : main env = [ Event.glfwInit false, Event.print .failedToInitializeGLFW,
                   Event.mainReturn EXIT_FAILURE ] := by
      simp [main, h1]
    rw [hm]
    exact ⟨rfl, rfl⟩
  · intro h1 h2
    have hm : main env = [ Event.glfwInit true, Event.glfwWindowHint,
                   Event.glfwCreateWindow 512 512 none,
                   Event.print .failedToCreateGLFWWindow, Event.glfwTerminate,
                   Event.mainReturn EXIT_FAILURE ] := by
      simp [main, h1, h2, initialState]
    rw [hm]
    exact ⟨rfl, rfl⟩
  · intro h1 h2 h3
    have hm : main env = [ Event.glfwInit true, Event.glfwWindowHint,
                   Event.glfwCreateWindow 512 512 (some 0),
                   Event.glfwGetFramebufferSize env.fbSize.1 env.fbSize.2,
                   Event.createInstance 1, Event.createSurfaceForWindow 2,
                   Event.print (.surfaceIs 2),
                   Event.requestAdapter (some 2) .HighPerformance,
                   Event.onAdapterFound env.adapterStatus,
                   Event.print .failedToFindAnAdapter, Event.exit 0 ] := by
      simp [main, GetDevice, OnAdapterFound, h1, h2, h3, initialState]
    rw [hm]
    exact ⟨rfl, rfl⟩
  · intro h1 h2 h3 h4
    have hm : main env = [ Event.glfwInit true, Event.glfwWindowHint,
                   Event.glfwCreateWindow 512 512 (some 0),
                   Event.glfwGetFramebufferSize env.fbSize.1 env.fbSize.2,
                   Event.createInstance 1, Event.createSurfaceForWindow 2,
                   Event.print (.surfaceIs 2),
                   Event.requestAdapter (some 2) .HighPerformance,
                   Event.onAdapterFound .Success,
                   Event.adapterAcquire 3, Event.adapterGetProperties,
                   Event.print .adapterProperties,
                   Event.requestDevice,
                   Event.onDeviceFound env.deviceStatus,
                   Event.print .failedToCreateDevice, Event.exit 0 ] := by
      simp [main, GetDevice, OnAdapterFound, OnDeviceFound, h1, h2, h3, h4, initialState]
    rw [hm]
    exact ⟨rfl, rfl⟩

/-- The four failing sample runs, one per failure path of C3. -/
theorem failure_paths_terminate_witness :
    (initFailureRun.glfwInitOk = false
      ∧ main initFailureRun = [ Event.glfwInit false, Event.print .failedToInitializeGLFW,
                   Event.mainReturn EXIT_FAILURE ]
      ∧ (main initFailureRun).any Event.isCreateWindow = false)
    ∧ (windowFailureRun.glfwInitOk = true ∧ windowFailureRun.windowOk = false
      ∧ main windowFailureRun = [ Event.glfwInit true, Event.glfwWindowHint,
                   Event.glfwCreateWindow 512 512 none,
                   Event.print .failedToCreateGLFWWindow, Event.glfwTerminate,
                   Event.mainReturn EXIT_FAILURE ]
      ∧ (main windowFailureRun).any (fun e => e.isCreateInstance || e.isRequestAdapter) = false)
    ∧ (adapterFailureRun.glfwInitOk = true ∧ adapterFailureRun.windowOk = true
      ∧ adapterFailureRun.adapterStatus ≠ .Success
      ∧ main adapterFailureRun = [ Event.glfwInit true, Event.glfwWindowHint,
                   Event.glfwCreateWindow 512 512 (some 0),
                   Event.glfwGetFramebufferSize 512 512,
                   Event.createInstance 1, Event.createSurfaceForWindow 2,
                   Event.print (.surfaceIs 2),
                   Event.requestAdapter (some 2) .HighPerformance,
                   Event.onAdapterFound .Unavailable,
                   Event.print .failedToFindAnAdapter, Event.exit 0 ]
      ∧ (main adapterFailureRun).any Event.isRequestDevice = false)
    ∧ (deviceFailureRun.glfwInitOk = true ∧ deviceFailureRun.windowOk = true
      ∧ deviceFailureRun.adapterStatus = .Success ∧ deviceFailureRun.deviceStatus ≠ .Success
      ∧ main deviceFailureRun = [ Event.glfwInit true, Event.glfwWindowHint,
                   Event.glfwCreateWindow 512 512 (some 0),
                   Event.glfwGetFramebufferSize 512 512,
                   Event.createInstance 1, Event.createSurfaceForWindow 2,
                   Event.print (.surfaceIs 2),
                   Event.requestAdapter (some 2) .HighPerformance,
                   Event.onAdapterFound .Success,
                   Event.adapterAcquire 3, Event.adapterGetProperties,
                   Event.print .adapterProperties,
                   Event.requestDevice,
                   Event.onDeviceFound .Error,
                   Event.print .failedToCreateDevice, Event.exit 0 ]
      ∧ (main deviceFailureRun).any (fun e => e.isDeviceAcquire || e.isStartEntry) = false) :=
  ⟨⟨rfl, (failure_paths_terminate initFailureRun).1 rfl⟩,
   ⟨rfl, rfl, (failure_paths_terminate windowFailureRun).2.1 rfl rfl⟩,
   ⟨rfl, rfl, by decide, (failure_paths_terminate adapterFailureRun).2.2.1 rfl rfl (by decide)⟩,
   ⟨rfl, rfl, rfl, by decide,
    (failure_paths_terminate deviceFailureRun).2.2.2 rfl rfl rfl (by decide)⟩⟩

/-! ## C9 -/

/-- C9 (as the code behaves): in a run in which every acquisition succeeds,
whatever the framebuffer sizes and the number of frames, `glfwDestroyWindow` is
called twice on the same window and `glfwTerminate` twice: once at the end of
`Start` and once more when `GetDevice` returns to `main`.  The run ends with
these four calls, all after the loop has exited. -/
theorem window_torn_down_twice (fb : Int × Int) (frames : List (Int × Int)) :
    (main (successRun fb frames)).countP Event.isDestroyWindow = 2
    ∧ (main (successRun fb frames)).countP Event.isTerminate = 2
    ∧ ∃ body : List Event,
        main (successRun fb frames)
          = body ++ [ Event.glfwWindowShouldClose true,
                      Event.glfwDestroyWindow (some 0), Event.glfwTerminate,
                      Event.glfwDestroyWindow (some 0), Event.glfwTerminate,
                      Event.mainReturn 0 ] := by
  have hd : ∀ (fs : List (Int × Int)) (s : State),
      (renderLoop s fs).2.countP Event.isDestroyWindow = 0 * fs.length := by
    apply renderLoop_countP _ 0 (fun _ => rfl)
    intro s f
    simp only [loopBody, resizeCheck]
    split <;> simp [Render, renderPassCommands, SetupSwapChain, CreateRenderPipeline,
      Event.isDestroyWindow, List.countP_cons]
  have ht : ∀ (fs : List (Int × Int)) (s : State),
      (renderLoop s fs).2.countP Event.isTerminate = 0 * fs.length := by
    apply renderLoop_countP _ 0 (fun _ => rfl)
    intro s f
    simp only [loopBody, resizeCheck]
    split <;> simp [Render, renderPassCommands, SetupSwapChain, CreateRenderPipeline,
      Event.isTerminate, List.countP_cons]
  rw [main_of_succeeds (successRun fb frames) rfl, Start_trace]
  refine ⟨?_, ?_, ?_⟩
  · simp [List.countP_append, hd, startupEvents, StartSetup, SetupSwapChain,
      CreateRenderPipeline, Event.isDestroyWindow, List.countP_cons]
  · simp [List.countP_append, ht, startupEvents, StartSetup, SetupSwapChain,
      CreateRenderPipeline, Event.isTerminate, List.countP_cons]
  · obtain ⟨body, hb⟩ := renderLoop_ends (successRun fb frames).frames
      (StartSetup (startState (successRun fb frames))).1
    refine ⟨startupEvents (successRun fb frames)
      ++ (StartSetup (startState (successRun fb frames))).2 ++ body, ?_⟩
    simp only [hb]
    simp [startState]

/-! ## C7 -/

/-- C7: every `Render` call obtains the current texture view of the swap chain,
begins one render pass whose descriptor has exactly one colour attachment (that
view, load operation `Clear` with clear value (0, 1, 0.5, 1), store operation
`Store`) and no depth-stencil attachment, and only then records the draw.  The
same holds for the pass submitted in every loop iteration, and every pass
submitted by a loop of `n` frames has a descriptor of this form. -/
theorem render_pass_clears_then_draws (s : State) (f : Int × Int)
    (frames : List (Int × Int)) :
    (Render s).filter
        (fun e => e.isGetCurrentTextureView || e.isBeginRenderPass || e.isDraw)
      = [ Event.getCurrentTextureView s.swapChain,
          Event.beginRenderPass
            { colorAttachments :=
                [{ view := { swapChain := s.swapChain }, loadOp := .Clear, storeOp := .Store,
                   clearValue := { r := 0, g := 1, b := 1/2, a := 1 } }],
              depthStencilAttachment := none },
          Event.pass (.draw 6 1 0 0) ]
    ∧ (submittedPasses (Render s)).map RenderPass.desc
      = [{ colorAttachments :=
             [{ view := { swapChain := s.swapChain }, loadOp := .Clear, storeOp := .Store,
                clearValue := { r := 0, g := 1, b := 1/2, a := 1 } }],
           depthStencilAttachment := none }]
    ∧ (submittedPasses (loopBody s f).2).map RenderPass.desc
      = [{ colorAttachments :=
             [{ view := { swapChain := (loopBody s f).1.swapChain }, loadOp := .Clear,
                storeOp := .Store, clearValue := { r := 0, g := 1, b := 1/2, a := 1 } }],
           depthStencilAttachment := none }]
    ∧ (submittedPasses (renderLoop s frames).2).length = frames.length
    ∧ ∀ rp ∈ submittedPasses (renderLoop s frames).2,
        ∃ sc : Option SwapChain,
          rp.desc = { colorAttachments :=
                        [{ view := { swapChain := sc }, loadOp := .Clear, storeOp := .Store,
                           clearValue := { r := 0, g := 1, b := 1/2, a := 1 } }],
                      depthStencilAttachment := none }
          ∧ rp.desc.colorAttachments.length = 1 := by
  refine ⟨?_, ?_, ?_, ?_, ?_⟩
  · simp [Render, renderPassCommands, renderPassDescriptor, Event.isGetCurrentTextureView,
      Event.isBeginRenderPass, Event.isDraw, List.filter_cons]
  · simp [submittedPasses_Render, renderPassDescriptor]
  · simp [submittedPasses_loopBody, renderPassDescriptor]
  · exact (submittedPasses_renderLoop (fun _ => True) (fun _ _ _ _ => trivial) frames s
      trivial).1
  · intro rp hrp
    obtain ⟨t, _, ht⟩ := (submittedPasses_renderLoop (fun _ => True)
      (fun _ _ _ _ => trivial) frames s trivial).2 rp hrp
    exact ⟨t.swapChain, by rw [ht]; rfl, by rw [ht]; rfl⟩

/-! ## C10 -/

/-- C10: whatever the globals, the swap chain that `SetupSwapChain` creates has
format `BGRA8Unorm`, and the pipeline that `CreateRenderPipeline` creates has
exactly one colour target, of format `BGRA8Unorm`.  In a run in which every
acquisition succeeds, whatever the framebuffer sizes and the frames, one pass
is submitted per frame, and every submitted pass has exactly one colour
attachment, a view of a swap chain of format `BGRA8Unorm`, and sets a pipeline
with exactly one colour target, of format `BGRA8Unorm`. -/
theorem render_target_format_consistent (env : Env) (s : State) (surface : Option Handle)
    (h : env.succeeds = true) :
    (SetupSwapChain s surface).1.swapChain.map (fun sc => sc.desc.format)
      = some TextureFormat.BGRA8Unorm
    ∧ (CreateRenderPipeline s).1.pipeline.map
        (fun p => p.desc.fragment.map (fun fs => fs.targets.map (fun t => t.format)))
      = some (some [TextureFormat.BGRA8Unorm])
    ∧ (submittedPasses (main env)).length = env.frames.length
    ∧ ∀ rp ∈ submittedPasses (main env),
        ∃ (sc : SwapChain) (p : RenderPipeline) (fs : FragmentState),
          rp.desc.colorAttachments.map (fun a => a.view.swapChain) = [some sc]
          ∧ sc.desc.format = TextureFormat.BGRA8Unorm
          ∧ rp.commands.head? = some (PassCommand.setPipeline (some p))
          ∧ p.desc.fragment = some fs
          ∧ fs.targets = [{ format := TextureFormat.BGRA8Unorm }]
          ∧ fs.targets.length = rp.desc.colorAttachments.length := by
  refine ⟨rfl, rfl, (submittedPasses_main env h).1, ?_⟩
  intro rp hrp
  obtain ⟨t, ⟨⟨hsc, hsc'⟩, ⟨hp, m, hp'⟩, _⟩, ht⟩ := (submittedPasses_main env h).2 rp hrp
  subst ht
  refine ⟨⟨hsc, t.surface, ⟨.RenderAttachment, .BGRA8Unorm, t.kWidth, t.kHeight, .Fifo⟩⟩,
    ⟨hp, renderPipelineDescriptor m⟩, ⟨m, .fs_main, [⟨.BGRA8Unorm⟩]⟩, ?_, rfl, ?_, rfl, rfl, rfl⟩
  · simp only [renderPassDescriptor, hsc', List.map_cons, List.map_nil]
  · simp only [renderPassCommands, hp', List.head?_cons]

/-- The sample run satisfies the hypothesis of C10. -/
theorem render_target_format_consistent_witness :
    sampleRun.succeeds = true
    ∧ (SetupSwapChain initialState none).1.swapChain.map (fun sc => sc.desc.format)
      = some TextureFormat.BGRA8Unorm
    ∧ (CreateRenderPipeline initialState).1.pipeline.map
        (fun p => p.desc.fragment.map (fun fs => fs.targets.map (fun t => t.format)))
      = some (some [TextureFormat.BGRA8Unorm])
    ∧ (submittedPasses (main sampleRun)).length = sampleRun.frames.length
    ∧ ∀ rp ∈ submittedPasses (main sampleRun),
        ∃ (sc : SwapChain) (p : RenderPipeline) (fs : FragmentState),
          rp.desc.colorAttachments.map (fun a => a.view.swapChain) = [some sc]
          ∧ sc.desc.format = TextureFormat.BGRA8Unorm
          ∧ rp.commands.head? = some (PassCommand.setPipeline (some p))
          ∧ p.desc.fragment = some fs
          ∧ fs.targets = [{ format := TextureFormat.BGRA8Unorm }]
          ∧ fs.targets.length = rp.desc.colorAttachments.length :=
  ⟨by decide, render_target_format_consistent sampleRun initialState none (by decide)⟩

/-! ## C8 -/

/-- C8: the vertex buffer layout of the pipeline has array stride
`sizeof(vec2)` and one attribute, `Float32x2` at offset 0, which fits in the
stride.  In a run in which every acquisition succeeds, the only buffer created
is the one `Start` creates (handle 5, 48 bytes = `6 * sizeof(vec2)`), the only
write fills it from offset 0 with the 48 bytes of the six vertices, and both
come before every call made by `Render`.  Every submitted pass is SetPipeline,
SetVertexBuffer binding that very buffer (slot 0, offset 0, size
`6 * sizeof(vec2)`), Draw(6), with that layout and triangle-list topology; the
draw fetches exactly the bytes 0..47 of the bound range, which is the whole
buffer and exactly what was written, and its 6 vertices make 2 triangles with
none left over. -/
theorem draw_fetches_exactly_uploaded_bytes (env : Env) (h : env.succeeds = true) :
    vertices.length * sizeofVec2 = 48
    ∧ 6 * sizeofVec2 = 48
    ∧ (main env).filter Event.isBufferUpload
        = [ Event.createBuffer ⟨5, ⟨[.Vertex, .CopyDst], 48, false⟩⟩,
            Event.writeBuffer (some ⟨5, ⟨[.Vertex, .CopyDst], 48, false⟩⟩) 0 vertices 48 ]
    ∧ (∀ (pre post : List Event) (e : Event),
        main env = pre ++ e :: post → e.isRenderCall = true →
          Event.createBuffer ⟨5, ⟨[.Vertex, .CopyDst], 48, false⟩⟩ ∈ pre
          ∧ Event.writeBuffer (some ⟨5, ⟨[.Vertex, .CopyDst], 48, false⟩⟩) 0 vertices 48
              ∈ pre)
    ∧ (submittedPasses (main env)).length = env.frames.length
    ∧ ∀ rp ∈ submittedPasses (main env),
        ∃ (p : RenderPipeline) (layout : VertexBufferLayout),
          rp.commands
            = [ PassCommand.setPipeline (some p),
                PassCommand.setVertexBuffer 0
                  (some ⟨5, ⟨[.Vertex, .CopyDst], 48, false⟩⟩) 0 (6 * sizeofVec2),
                PassCommand.draw 6 1 0 0 ]
          ∧ p.desc.vertex.buffers = [layout]
          ∧ layout.arrayStride = sizeofVec2
          ∧ layout.stepMode = VertexStepMode.Vertex
          ∧ layout.attributes
              = [{ format := VertexFormat.Float32x2, offset := 0, shaderLocation := 0 }]
          ∧ 0 + VertexFormat.Float32x2.byteSize ≤ layout.arrayStride
          ∧ p.desc.primitive.topology = PrimitiveTopology.TriangleList
          ∧ fetchedBytes layout 0 6 1 0 0 = List.range (6 * sizeofVec2)
          ∧ fetchedBytes layout 0 6 1 0 0 = List.range 48
          ∧ primitivesOf p.desc.primitive.topology 6 = some (2, 0) := by
  have hv : vertices.length = 6 := rfl
  have hm : main env = startupEvents env ++ (StartSetup (startState env)).2
      ++ ((renderLoop (StartSetup (startState env)).1 env.frames).2
        ++ [ Event.glfwDestroyWindow (some 0), Event.glfwTerminate,
             Event.glfwDestroyWindow (some 0), Event.glfwTerminate, Event.mainReturn 0 ]) := by
    rw [main_of_succeeds env h, Start_trace]
    simp [startState]
  have hloop : ∀ (fs : List (Int × Int)) (s : State),
      (renderLoop s fs).2.filter Event.isBufferUpload = [] := by
    apply renderLoop_filter_nil _ (fun _ => rfl)
    intro s f
    simp only [loopBody, resizeCheck]
    split <;> simp [Render, renderPassCommands, SetupSwapChain, CreateRenderPipeline,
      Event.isBufferUpload, List.filter_cons]
  refine ⟨rfl, rfl, ?_, ?_, (submittedPasses_main env h).1, ?_⟩
  · rw [hm]
    simp only [List.filter_append, hloop]
    simp [startupEvents, StartSetup, SetupSwapChain, CreateRenderPipeline, startState, hv,
      sizeofVec2, Event.isBufferUpload, List.filter_cons]
  · intro pre post e hsplit he
    rw [hm] at hsplit
    constructor
    · apply mem_before_render env pre post _ e _ hsplit he
      simp [startupEvents, StartSetup, SetupSwapChain, CreateRenderPipeline, startState, hv,
        sizeofVec2]
    · apply mem_before_render env pre post _ e _ hsplit he
      simp [startupEvents, StartSetup, SetupSwapChain, CreateRenderPipeline, startState, hv,
        sizeofVec2]
  · intro rp hrp
    obtain ⟨t, ⟨⟨_, ⟨hp, m, hp'⟩, _⟩, hb⟩, ht⟩ := submittedPasses_main_buffer env h rp hrp
    subst ht
    refine ⟨⟨hp, renderPipelineDescriptor m⟩, ⟨sizeofVec2, .Vertex, [⟨.Float32x2, 0, 0⟩]⟩,
      ?_, rfl, rfl, rfl, rfl, ?_, rfl, ?_, ?_, rfl⟩
    · simp only [renderPassCommands, hp', hb]
    · decide
    · decide
    · decide

/-- The sample run satisfies the hypothesis of C8. -/
theorem draw_fetches_exactly_uploaded_bytes_witness :
    sampleRun.succeeds = true
    ∧
    vertices.length * sizeofVec2 = 48
    ∧ 6 * sizeofVec2 = 48
    ∧ (main sampleRun).filter Event.isBufferUpload
        = [ Event.createBuffer ⟨5, ⟨[.Vertex, .CopyDst], 48, false⟩⟩,
            Event.writeBuffer (some ⟨5, ⟨[.Vertex, .CopyDst], 48, false⟩⟩) 0 vertices 48 ]
    ∧ (∀ (pre post : List Event) (e : Event),
        main sampleRun = pre ++ e :: post → e.isRenderCall = true →
          Event.createBuffer ⟨5, ⟨[.Vertex, .CopyDst], 48, false⟩⟩ ∈ pre
          ∧ Event.writeBuffer (some ⟨5, ⟨[.Vertex, .CopyDst], 48, false⟩⟩) 0 vertices 48
              ∈ pre)
    ∧ (submittedPasses (main sampleRun)).length = sampleRun.frames.length
    ∧ ∀ rp ∈ submittedPasses (main sampleRun),
        ∃ (p : RenderPipeline) (layout : VertexBufferLayout),
          rp.commands
            = [ PassCommand.setPipeline (some p),
                PassCommand.setVertexBuffer 0
                  (some ⟨5, ⟨[.Vertex, .CopyDst], 48, false⟩⟩) 0 (6 * sizeofVec2),
                PassCommand.draw 6 1 0 0 ]
          ∧ p.desc.vertex.buffers = [layout]
          ∧ layout.arrayStride = sizeofVec2
          ∧ layout.stepMode = VertexStepMode.Vertex
          ∧ layout.attributes
              = [{ format := VertexFormat.Float32x2, offset := 0, shaderLocation := 0 }]
          ∧ 0 + VertexFormat.Float32x2.byteSize ≤ layout.arrayStride
          ∧ p.desc.primitive.topology = PrimitiveTopology.TriangleList
          ∧ fetchedBytes layout 0 6 1 0 0 = List.range (6 * sizeofVec2)
          ∧ fetchedBytes layout 0 6 1 0 0 = List.range 48
          ∧ primitivesOf p.desc.primitive.topology 6 = some (2, 0) :=
  ⟨by decide, draw_fetches_exactly_uploaded_bytes sampleRun (by decide)⟩

/-! ## C5 -/

/-- C5 as stated fails: in the sample run, entering the loop with the recorded
size 512 x 512, an iteration that reports 640 x 480 is a resize, it calls
`CreateRenderPipeline`, and the global `pipeline` after the iteration is not
the pipeline from before it. -/
theorem resize_keeps_pipeline_counterexample :
    (toU32 640 != (StartSetup (startState sampleRun)).1.kWidth) = true
    ∧ (loopBody (StartSetup (startState sampleRun)).1 (640, 480)).2.any
        Event.isCreateRenderPipeline = true
    ∧ (loopBody (StartSetup (startState sampleRun)).1 (640, 480)).1.pipeline
        ≠ (StartSetup (startState sampleRun)).1.pipeline := by
  refine ⟨by decide, ?_, ?_⟩
  · simp [loopBody, resizeCheck, StartSetup, SetupSwapChain, CreateRenderPipeline,
      startState, sampleRun, toU32, Event.isCreateRenderPipeline]
  · simp [loopBody, resizeCheck, StartSetup, SetupSwapChain, CreateRenderPipeline,
      startState, sampleRun, toU32]

/-- C5 (amended): in a loop iteration whose framebuffer size differs from the
recorded `kWidth`/`kHeight`, the resources created are, in this order, a swap
chain (of the new size), a shader module and a render pipeline, each with a
new handle, and the globals `swapChain` and `pipeline` are replaced by them;
the vertex buffer, the device, the surface, the instance and the window are the
same after the iteration as before it. -/
theorem resize_recreates_swap_chain_and_pipeline (s : State) (f : Int × Int)
    (h : toU32 f.1 ≠ s.kWidth ∨ toU32 f.2 ≠ s.kHeight) :
    (loopBody s f).1.buffer = s.buffer
    ∧ (loopBody s f).1.device = s.device
    ∧ (loopBody s f).1.surface = s.surface
    ∧ (loopBody s f).1.inst = s.inst
    ∧ (loopBody s f).1.window = s.window
    ∧ (loopBody s f).1.swapChain
        = some ⟨s.fresh, s.surface,
                ⟨.RenderAttachment, .BGRA8Unorm, toU32 f.1, toU32 f.2, .Fifo⟩⟩
    ∧ (loopBody s f).1.pipeline
        = some ⟨s.fresh + 2, renderPipelineDescriptor (s.fresh + 1)⟩
    ∧ (loopBody s f).2.filter Event.isCreate
        = [ Event.createSwapChain
              ⟨s.fresh, s.surface,
               ⟨.RenderAttachment, .BGRA8Unorm, toU32 f.1, toU32 f.2, .Fifo⟩⟩,
            Event.createShaderModule (s.fresh + 1),
            Event.createRenderPipeline
              ⟨s.fresh + 2, renderPipelineDescriptor (s.fresh + 1)⟩ ] := by
  have hc : (toU32 f.1 != s.kWidth || toU32 f.2 != s.kHeight) = true := by
    simpa using h
  simp [loopBody, resizeCheck, hc, SetupSwapChain, CreateRenderPipeline, Render,
    renderPassCommands, Event.isCreate, List.filter_cons]

/-- The resize of the sample run, from 512 x 512 to 640 x 480, satisfies the hypothesis of the amended C5. -/
theorem resize_recreates_swap_chain_and_pipeline_witness :
    (toU32 640 ≠ (StartSetup (startState sampleRun)).1.kWidth
      ∨ toU32 480 ≠ (StartSetup (startState sampleRun)).1.kHeight)
    ∧ (loopBody (StartSetup (startState sampleRun)).1 (640, 480)).1.buffer
        = (StartSetup (startState sampleRun)).1.buffer
    ∧ (loopBody (StartSetup (startState sampleRun)).1 (640, 480)).1.pipeline
        = some ⟨(StartSetup (startState sampleRun)).1.fresh + 2,
                renderPipelineDescriptor ((StartSetup (startState sampleRun)).1.fresh + 1)⟩ :=
  have h := resize_recreates_swap_chain_and_pipeline
    (StartSetup (startState sampleRun)).1 (640, 480) (Or.inl (by decide))
  ⟨Or.inl (by decide), h.1, h.2.2.2.2.2.2.1⟩

/-! ## C6 -/

/-- C6: in a loop iteration that reports the framebuffer size `f` (two `int`s),
a swap chain is created if and only if `f`, converted to `uint32_t`, differs
from the recorded `(kWidth, kHeight)`, and after the iteration the recorded
size is `f` converted to `uint32_t` (which is `f` itself when `f` is not
negative).  In a run in which every acquisition
succeeds, the first swap chain is created with the size `main` recorded, and
the `i`-th `Render` call takes its view from a swap chain created with the
size reported in the `i`-th iteration (modulo `2^32`).  An iteration that
reports the same size as the iteration before it, or a first iteration that
reports the size `main` recorded, creates nothing and leaves the globals as
they are. -/
theorem swap_chain_tracks_framebuffer_size (env : Env) (s : State) (f g : Int × Int)
    (h : env.succeeds = true) (hg : toU32 g.1 = toU32 f.1 ∧ toU32 g.2 = toU32 f.2) :
    ((loopBody s f).2.any Event.isCreateSwapChain = true
        ↔ (toU32 f.1, toU32 f.2) ≠ (s.kWidth, s.kHeight))
    ∧ (loopBody s f).1.kWidth = toU32 f.1
    ∧ (loopBody s f).1.kHeight = toU32 f.2
    ∧ (0 ≤ f.1 ∧ f.1 < 4294967296 → ((loopBody s f).1.kWidth : Int) = f.1)
    ∧ (0 ≤ f.2 ∧ f.2 < 4294967296 → ((loopBody s f).1.kHeight : Int) = f.2)
    ∧ ((main env).filter Event.isCreateSwapChain).head?
        = some (Event.createSwapChain
            ⟨6, some 2, ⟨.RenderAttachment, .BGRA8Unorm, toU32 env.fbSize.1,
                         toU32 env.fbSize.2, .Fifo⟩⟩)
    ∧ renderTargetSizes (main env) = env.frames.map (fun f => some (toU32 f.1, toU32 f.2))
    ∧ (loopBody (loopBody s f).1 g).2.filter Event.isCreate = []
    ∧ (loopBody (loopBody s f).1 g).1 = (loopBody s f).1
    ∧ (loopBody (StartSetup (startState env)).1 env.fbSize).2.filter Event.isCreate = []
    ∧ (loopBody (StartSetup (startState env)).1 env.fbSize).1
        = (StartSetup (startState env)).1 := by
  have hsame : ∀ (t : State) (k : Int × Int), t.kWidth = toU32 k.1 → t.kHeight = toU32 k.2 →
      (loopBody t k).2.filter Event.isCreate = [] ∧ (loopBody t k).1 = t := by
    intro t k h1 h2
    simp [loopBody, resizeCheck, h1, h2, Render, renderPassCommands, Event.isCreate,
      List.filter_cons]
  obtain ⟨hw, hh⟩ := resizeCheck_size s f.1 f.2
  have hexact : ∀ x : Int, 0 ≤ x ∧ x < 4294967296 → ((toU32 x : Nat) : Int) = x := by
    intro x hx
    unfold toU32
    rw [Int.emod_eq_of_lt hx.1 hx.2, Int.toNat_of_nonneg hx.1]
  refine ⟨?_, hw, hh, fun hx => (congrArg Int.ofNat hw).trans (hexact _ hx),
    fun hx => (congrArg Int.ofNat hh).trans (hexact _ hx), ?_, ?_, ?_, ?_, ?_, ?_⟩
  · simp only [loopBody, resizeCheck]
    split
    · rename_i hc
      have hne : (toU32 f.1, toU32 f.2) ≠ (s.kWidth, s.kHeight) := by
        intro he
        simp only [Prod.mk.injEq] at he
        simp [he.1, he.2] at hc
      simp [hne, SetupSwapChain, CreateRenderPipeline, Render, renderPassCommands,
        Event.isCreateSwapChain]
    · rename_i hc
      simp only [Bool.or_eq_true, bne_iff_ne, ne_eq, not_or, Decidable.not_not] at hc
      simp [hc.1, hc.2, Render, renderPassCommands, Event.isCreateSwapChain]
  · rw [main_of_succeeds env h, Start_trace]
    simp [startupEvents, StartSetup, SetupSwapChain, CreateRenderPipeline, startState,
      Event.isCreateSwapChain, List.filter_cons]
  · rw [main_of_succeeds env h, Start_trace]
    simp only [renderTargetSizes_append,
      renderTargetSizes_renderLoop env.frames _ (StartSetup_ready _)]
    simp [renderTargetSizes, startupEvents, StartSetup, SetupSwapChain, CreateRenderPipeline]
  · exact (hsame _ g (hw.trans hg.1.symm) (hh.trans hg.2.symm)).1
  · exact (hsame _ g (hw.trans hg.1.symm) (hh.trans hg.2.symm)).2
  · exact (hsame _ env.fbSize (by simp [StartSetup, SetupSwapChain, CreateRenderPipeline,
      startState]) (by simp [StartSetup, SetupSwapChain, CreateRenderPipeline, startState])).1
  · exact (hsame _ env.fbSize (by simp [StartSetup, SetupSwapChain, CreateRenderPipeline,
      startState]) (by simp [StartSetup, SetupSwapChain, CreateRenderPipeline, startState])).2

/-- The sample run and two successive iterations reporting 640 x 480 satisfy the hypotheses of C6. -/
theorem swap_chain_tracks_framebuffer_size_witness :
    sampleRun.succeeds = true
    ∧ (toU32 640 = toU32 640 ∧ toU32 480 = toU32 480)
    ∧ ((loopBody initialState (640, 480)).2.any Event.isCreateSwapChain = true
        ↔ (toU32 640, toU32 480) ≠ (initialState.kWidth, initialState.kHeight))
    ∧ (loopBody initialState (640, 480)).1.kWidth = toU32 640
    ∧ (loopBody initialState (640, 480)).1.kHeight = toU32 480
    ∧ ((0 : Int) ≤ 640 ∧ (640 : Int) < 4294967296 →
        ((loopBody initialState (640, 480)).1.kWidth : Int) = 640)
    ∧ ((0 : Int) ≤ 480 ∧ (480 : Int) < 4294967296 →
        ((loopBody initialState (640, 480)).1.kHeight : Int) = 480)
    ∧ ((main sampleRun).filter Event.isCreateSwapChain).head?
        = some (Event.createSwapChain
            ⟨6, some 2, ⟨.RenderAttachment, .BGRA8Unorm, toU32 sampleRun.fbSize.1,
                         toU32 sampleRun.fbSize.2, .Fifo⟩⟩)
    ∧ renderTargetSizes (main sampleRun)
        = sampleRun.frames.map (fun k => some (toU32 k.1, toU32 k.2))
    ∧ (loopBody (loopBody initialState (640, 480)).1 (640, 480)).2.filter Event.isCreate = []
    ∧ (loopBody (loopBody initialState (640, 480)).1 (640, 480)).1
        = (loopBody initialState (640, 480)).1
    ∧ (loopBody (StartSetup (startState sampleRun)).1 sampleRun.fbSize).2.filter
        Event.isCreate = []
    ∧ (loopBody (StartSetup (startState sampleRun)).1 sampleRun.fbSize).1
        = (StartSetup (startState sampleRun)).1 :=
  ⟨by decide, ⟨rfl, rfl⟩,
   swap_chain_tracks_framebuffer_size sampleRun initialState (640, 480) (640, 480)
     (by decide) ⟨rfl, rfl⟩⟩

/-! ## C4 -/

/-- C4: a run in which every acquisition succeeds is, in this order: the window
is created, the adapter requested, the adapter callback requests the device,
the device callback assigns the global device and enters `Start`, `Start`
creates and writes the vertex buffer, creates the swap chain and the pipeline,
then the loop runs, then the window is torn down.  The requests, callbacks,
device assignment and entry into `Start` each occur once in the whole run.
Every loop iteration is: poll events, read the framebuffer size, the resize
check, `Render`, `Present`, `Tick`.  When the size read, converted to
`uint32_t`, differs from the recorded `kWidth`/`kHeight`, the resize check
records it, prints a message and rebuilds the swap chain and the pipeline
before `Render`; when it is equal, the resize check does nothing and `Render`
follows the size read directly.  Over the whole loop the steps come in the
order poll, resize check, render, present, once per frame.  Every call made by
`Render` comes after the creation of the buffer, of a swap chain and of a
pipeline. -/
theorem successful_run_is_linear (env : Env) (s : State) (f : Int × Int)
    (fs : List (Int × Int)) (h : env.succeeds = true) :
    main env
      = [ Event.glfwInit true, Event.glfwWindowHint,
          Event.glfwCreateWindow 512 512 (some 0),
          Event.glfwGetFramebufferSize env.fbSize.1 env.fbSize.2,
          Event.createInstance 1,
          Event.createSurfaceForWindow 2,
          Event.print (.surfaceIs 2),
          Event.requestAdapter (some 2) .HighPerformance,
          Event.onAdapterFound .Success,
          Event.adapterAcquire 3, Event.adapterGetProperties,
          Event.print .adapterProperties,
          Event.requestDevice,
          Event.onDeviceFound .Success,
          Event.deviceAcquire 4, Event.print (.foundDevice 4),
          Event.setUncapturedErrorCallback,
          Event.print .start,
          Event.createBuffer ⟨5, ⟨[.Vertex, .CopyDst], 48, false⟩⟩,
          Event.writeBuffer (some ⟨5, ⟨[.Vertex, .CopyDst], 48, false⟩⟩) 0 vertices 48,
          Event.createSwapChain
            ⟨6, some 2, ⟨.RenderAttachment, .BGRA8Unorm, toU32 env.fbSize.1,
                         toU32 env.fbSize.2, .Fifo⟩⟩,
          Event.createShaderModule 7,
          Event.createRenderPipeline ⟨8, renderPipelineDescriptor 7⟩ ]
        ++ (renderLoop (StartSetup (startState env)).1 env.frames).2
        ++ [ Event.glfwDestroyWindow (some 0), Event.glfwTerminate,
             Event.glfwDestroyWindow (some 0), Event.glfwTerminate, Event.mainReturn 0 ]
    ∧ (main env).filter Event.isStartupChain
      = [ Event.requestAdapter (some 2) .HighPerformance, Event.onAdapterFound .Success,
          Event.requestDevice, Event.onDeviceFound .Success, Event.deviceAcquire 4,
          Event.print .start ]
    ∧ (renderLoop s (f :: fs)).2
      = Event.glfwWindowShouldClose false
          :: ((loopBody s f).2 ++ (renderLoop (loopBody s f).1 fs).2)
    ∧ (loopBody s f).2
      = [ Event.glfwPollEvents, Event.glfwGetFramebufferSize f.1 f.2 ]
          ++ (resizeCheck s f.1 f.2).2
          ++ Render (resizeCheck s f.1 f.2).1
          ++ [ Event.present (resizeCheck s f.1 f.2).1.swapChain, Event.deviceTick ]
    ∧ ((toU32 f.1, toU32 f.2) ≠ (s.kWidth, s.kHeight) →
        loopBody s f
          = ({ s with
                 kWidth := toU32 f.1, kHeight := toU32 f.2,
                 swapChain := some ⟨s.fresh, s.surface,
                   ⟨.RenderAttachment, .BGRA8Unorm, toU32 f.1, toU32 f.2, .Fifo⟩⟩,
                 pipeline := some ⟨s.fresh + 2, renderPipelineDescriptor (s.fresh + 1)⟩,
                 fresh := s.fresh + 3 },
             [ Event.glfwPollEvents, Event.glfwGetFramebufferSize f.1 f.2,
               Event.print (.resizingTo f.1 f.2),
               Event.createSwapChain
                 ⟨s.fresh, s.surface,
                  ⟨.RenderAttachment, .BGRA8Unorm, toU32 f.1, toU32 f.2, .Fifo⟩⟩,
               Event.createShaderModule (s.fresh + 1),
               Event.createRenderPipeline
                 ⟨s.fresh + 2, renderPipelineDescriptor (s.fresh + 1)⟩ ]
               ++ Render
                   { s with
                       kWidth := toU32 f.1, kHeight := toU32 f.2,
                       swapChain := some ⟨s.fresh, s.surface,
                         ⟨.RenderAttachment, .BGRA8Unorm, toU32 f.1, toU32 f.2, .Fifo⟩⟩,
                       pipeline := some ⟨s.fresh + 2,
                         renderPipelineDescriptor (s.fresh + 1)⟩,
                       fresh := s.fresh + 3 }
               ++ [ Event.present (some ⟨s.fresh, s.surface,
                      ⟨.RenderAttachment, .BGRA8Unorm, toU32 f.1, toU32 f.2, .Fifo⟩⟩),
                    Event.deviceTick ]))
    ∧ ((toU32 f.1, toU32 f.2) = (s.kWidth, s.kHeight) →
        loopBody s f
          = (s,
             [ Event.glfwPollEvents, Event.glfwGetFramebufferSize f.1 f.2 ]
               ++ Render s
               ++ [ Event.present s.swapChain, Event.deviceTick ]))
    ∧ (renderLoop (StartSetup (startState env)).1 env.frames).2.filterMap Event.phase
      = env.frames.flatMap (fun _ => [LoopPhase.pollEvents, LoopPhase.resizeCheck,
                                      LoopPhase.render, LoopPhase.present])
    ∧ ∀ (pre post : List Event) (e : Event),
        main env = pre ++ e :: post → e.isRenderCall = true →
          pre.any Event.isCreateBuffer = true ∧ pre.any Event.isCreateSwapChain = true
            ∧ pre.any Event.isCreateRenderPipeline = true := by
  have hm : main env = startupEvents env ++ (StartSetup (startState env)).2
      ++ ((renderLoop (StartSetup (startState env)).1 env.frames).2
        ++ [ Event.glfwDestroyWindow (some 0), Event.glfwTerminate,
             Event.glfwDestroyWindow (some 0), Event.glfwTerminate, Event.mainReturn 0 ]) := by
    rw [main_of_succeeds env h, Start_trace]
    simp [startState]
  have hloop : ∀ (fs : List (Int × Int)) (s : State),
      (renderLoop s fs).2.filter Event.isStartupChain = [] := by
    apply renderLoop_filter_nil _ (fun _ => rfl)
    intro s f
    simp only [loopBody, resizeCheck]
    split <;> simp [Render, renderPassCommands, SetupSwapChain, CreateRenderPipeline,
      Event.isStartupChain, List.filter_cons]
  have hv : vertices.length = 6 := rfl
  refine ⟨?_, ?_, rfl, rfl, ?_, ?_, renderLoop_phases _ _, ?_⟩
  · rw [hm]
    simp [startupEvents, StartSetup, SetupSwapChain, CreateRenderPipeline, startState, hv,
      sizeofVec2]
  · rw [hm]
    simp only [List.filter_append, hloop]
    simp [startupEvents, StartSetup, SetupSwapChain, CreateRenderPipeline, startState,
      Event.isStartupChain, List.filter_cons]
  · intro hne
    have hc : (toU32 f.1 != s.kWidth || toU32 f.2 != s.kHeight) = true := by
      simp only [ne_eq, Prod.mk.injEq, not_and_or] at hne
      simpa using hne
    simp [loopBody, resizeCheck, hc, SetupSwapChain, CreateRenderPipeline]
  · intro he
    simp only [Prod.mk.injEq] at he
    simp [loopBody, resizeCheck, he.1, he.2]
  · intro pre post e hsplit he
    rw [hm] at hsplit
    exact setup_before_render env pre post _ e hsplit he

/-- The sample run satisfies the hypothesis of C4; from the initial globals
(512 x 512) a frame of 640 x 480 is a resize, and a second frame of 640 x 480
after it is not. -/
theorem successful_run_is_linear_witness :
    sampleRun.succeeds = true
    ∧ (toU32 640, toU32 480) ≠ (initialState.kWidth, initialState.kHeight)
    ∧ (toU32 640, toU32 480)
        = ((loopBody initialState (640, 480)).1.kWidth,
           (loopBody initialState (640, 480)).1.kHeight)
    ∧ (loopBody (loopBody initialState (640, 480)).1 (640, 480)).2
        = [ Event.glfwPollEvents, Event.glfwGetFramebufferSize 640 480 ]
            ++ Render (loopBody initialState (640, 480)).1
            ++ [ Event.present (loopBody initialState (640, 480)).1.swapChain,
                 Event.deviceTick ]
    ∧
    main sampleRun
      = [ Event.glfwInit true, Event.glfwWindowHint,
          Event.glfwCreateWindow 512 512 (some 0),
          Event.glfwGetFramebufferSize sampleRun.fbSize.1 sampleRun.fbSize.2,
          Event.createInstance 1,
          Event.createSurfaceForWindow 2,
          Event.print (.surfaceIs 2),
          Event.requestAdapter (some 2) .HighPerformance,
          Event.onAdapterFound .Success,
          Event.adapterAcquire 3, Event.adapterGetProperties,
          Event.print .adapterProperties,
          Event.requestDevice,
          Event.onDeviceFound .Success,
          Event.deviceAcquire 4, Event.print (.foundDevice 4),
          Event.setUncapturedErrorCallback,
          Event.print .start,
          Event.createBuffer ⟨5, ⟨[.Vertex, .CopyDst], 48, false⟩⟩,
          Event.writeBuffer (some ⟨5, ⟨[.Vertex, .CopyDst], 48, false⟩⟩) 0 vertices 48,
          Event.createSwapChain
            ⟨6, some 2, ⟨.RenderAttachment, .BGRA8Unorm, toU32 sampleRun.fbSize.1,
                         toU32 sampleRun.fbSize.2, .Fifo⟩⟩,
          Event.createShaderModule 7,
          Event.createRenderPipeline ⟨8, renderPipelineDescriptor 7⟩ ]
        ++ (renderLoop (StartSetup (startState sampleRun)).1 sampleRun.frames).2
        ++ [ Event.glfwDestroyWindow (some 0), Event.glfwTerminate,
             Event.glfwDestroyWindow (some 0), Event.glfwTerminate, Event.mainReturn 0 ]
    ∧ (main sampleRun).filter Event.isStartupChain
      = [ Event.requestAdapter (some 2) .HighPerformance, Event.onAdapterFound .Success,
          Event.requestDevice, Event.onDeviceFound .Success, Event.deviceAcquire 4,
          Event.print .start ]
    ∧ (renderLoop initialState ((640, 480) :: [])).2
      = Event.glfwWindowShouldClose false
          :: ((loopBody initialState (640, 480)).2 ++ (renderLoop (loopBody initialState (640, 480)).1 []).2)
    ∧ (loopBody initialState (640, 480)).2
      = [ Event.glfwPollEvents, Event.glfwGetFramebufferSize 640 480 ]
          ++ (resizeCheck initialState 640 480).2
          ++ Render (resizeCheck initialState 640 480).1
          ++ [ Event.present (resizeCheck initialState 640 480).1.swapChain, Event.deviceTick ]
    ∧ ((toU32 640, toU32 480) ≠ (initialState.kWidth, initialState.kHeight) →
        loopBody initialState (640, 480)
          = ({ initialState with
                 kWidth := toU32 640, kHeight := toU32 480,
                 swapChain := some ⟨initialState.fresh, initialState.surface,
                   ⟨.RenderAttachment, .BGRA8Unorm, toU32 640, toU32 480, .Fifo⟩⟩,
                 pipeline := some ⟨initialState.fresh + 2, renderPipelineDescriptor (initialState.fresh + 1)⟩,
                 fresh := initialState.fresh + 3 },
             [ Event.glfwPollEvents, Event.glfwGetFramebufferSize 640 480,
               Event.print (.resizingTo 640 480),
               Event.createSwapChain
                 ⟨initialState.fresh, initialState.surface,
                  ⟨.RenderAttachment, .BGRA8Unorm, toU32 640, toU32 480, .Fifo⟩⟩,
               Event.createShaderModule (initialState.fresh + 1),
               Event.createRenderPipeline
                 ⟨initialState.fresh + 2, renderPipelineDescriptor (initialState.fresh + 1)⟩ ]
               ++ Render
                   { initialState with
                       kWidth := toU32 640, kHeight := toU32 480,
                       swapChain := some ⟨initialState.fresh, initialState.surface,
                         ⟨.RenderAttachment, .BGRA8Unorm, toU32 640, toU32 480, .Fifo⟩⟩,
                       pipeline := some ⟨initialState.fresh + 2,
                         renderPipelineDescriptor (initialState.fresh + 1)⟩,
                       fresh := initialState.fresh + 3 }
               ++ [ Event.present (some ⟨initialState.fresh, initialState.surface,
                      ⟨.RenderAttachment, .BGRA8Unorm, toU32 640, toU32 480, .Fifo⟩⟩),
                    Event.deviceTick ]))
    ∧ ((toU32 640, toU32 480) = (initialState.kWidth, initialState.kHeight) →
        loopBody initialState (640, 480)
          = (initialState,
             [ Event.glfwPollEvents, Event.glfwGetFramebufferSize 640 480 ]
               ++ Render initialState
               ++ [ Event.present initialState.swapChain, Event.deviceTick ]))
    ∧ (renderLoop (StartSetup (startState sampleRun)).1 sampleRun.frames).2.filterMap Event.phase
      = sampleRun.frames.flatMap (fun _ => [LoopPhase.pollEvents, LoopPhase.resizeCheck,
                                      LoopPhase.render, LoopPhase.present])
    ∧ ∀ (pre post : List Event) (e : Event),
        main sampleRun = pre ++ e :: post → e.isRenderCall = true →
          pre.any Event.isCreateBuffer = true ∧ pre.any Event.isCreateSwapChain = true
            ∧ pre.any Event.isCreateRenderPipeline = true :=
  ⟨by decide, by decide, by decide,
   congrArg Prod.snd
     ((successful_run_is_linear sampleRun (loopBody initialState (640, 480)).1 (640, 480) []
        (by decide)).2.2.2.2.2.1 (by decide)),
   successful_run_is_linear sampleRun initialState (640, 480) [] (by decide)⟩

end WgpuStarter
